import Mathlib

/-!
Shallow embedding of the `pdf_to_table` repository.

The repository is four Python scripts:
* `docling_excel_extractor.py` — rasterizes a PDF page, OCRs it to Markdown,
  parses Markdown tables (via HTML) into per-page CSV files;
* `compile_reports.py` — globs the per-page CSVs, sorts them chronologically,
  pads them to a common row count and concatenates them side by side;
* `csv_to_excel_by_page.py` — same glob and sort, one Excel sheet per page CSV;
* `csv_to_excel_by_trimester.py` — same glob, groups pages by trimester and
  writes one vertically concatenated sheet per trimester.

Strings are embedded as `List Char` (paths, filenames, sheet names) and
`String` (cell contents and column labels).  Machine-level concerns do not
arise: all numbers here are unbounded Python ints, modelled as `Nat`.
Calls into pandas (`read_csv`, `concat`, `to_excel`, `to_csv`) are external
collaborators per the spec; reading a CSV is modelled as a `ReadOutcome`
input, and `pd.concat` is modelled by explicit row/column alignment below.
-/

namespace PdfToTable

/-- Numeric value of a decimal digit character (`'0'` ↦ 0, …, `'9'` ↦ 9). -/
def digitVal (c : Char) : Nat := c.toNat - 48

/-- Value of a list of decimal digit characters, as Python `int()` computes it
on a digit string. -/
def digitsToNat (ds : List Char) : Nat :=
  ds.foldl (fun n c => 10 * n + digitVal c) 0

/-- Fuel-driven digit accumulation (structural recursion, so that concrete
values reduce); the fuel never runs out when it starts at least `n + 1`. -/
def natToDigitsAux : Nat → Nat → List Char → List Char
  | 0, _, acc => acc
  | fuel + 1, n, acc =>
    if n < 10 then Nat.digitChar n :: acc
    else natToDigitsAux fuel (n / 10) (Nat.digitChar (n % 10) :: acc)

/-- Decimal digit list of a natural number, as Python `str`/f-string
formatting produces it (no sign, no leading zeros except for 0 itself). -/
def natToDigits (n : Nat) : List Char := natToDigitsAux (n + 1) n []

/-- The literal tail `_all_tables.csv` of the per-page CSV filenames. -/
def allTablesLit : List Char :=
  ['_', 'a', 'l', 'l', '_', 't', 'a', 'b', 'l', 'e', 's', '.', 'c', 's', 'v']

/-- The character class `[1-4]` of the filename regexes. -/
def isQuarterChar (q : Char) : Prop := q = '1' ∨ q = '2' ∨ q = '3' ∨ q = '4'

instance (q : Char) : Decidable (isQuarterChar q) := by
  unfold isQuarterChar; infer_instance

/-- Embedding of `re.match(r'([1-4]T\d{2,})_p(\d+)_all_tables\.csv', filename)`,
returning `(group(1), group(2))` on success.  Each greedy `\d` run is followed
by a non-digit literal (`_` resp. `.`-terminated text starting with `_`), so
the regex can only succeed with the maximal digit runs computed here; and
`re.match` anchors at the start only, so characters may remain after the
literal. -/
def matchOuter : List Char → Option (List Char × List Char)
  | q :: 'T' :: rest =>
    if isQuarterChar q then
      match rest.dropWhile Char.isDigit with
      | '_' :: 'p' :: r2 =>
        if 2 ≤ (rest.takeWhile Char.isDigit).length ∧
            1 ≤ (r2.takeWhile Char.isDigit).length ∧
            allTablesLit.isPrefixOf (r2.dropWhile Char.isDigit) then
          some (q :: 'T' :: rest.takeWhile Char.isDigit, r2.takeWhile Char.isDigit)
        else none
      | _ => none
    else none
  | _ => none

/-- Embedding of `re.match(r'([1-4])T(\d{2,})', s)` as used by the two
sort-key functions, returning `(group(1), group(2))`. -/
def matchQuarterYear : List Char → Option (Char × List Char)
  | q :: 'T' :: rest =>
    if isQuarterChar q then
      if 2 ≤ (rest.takeWhile Char.isDigit).length then
        some (q, rest.takeWhile Char.isDigit)
      else none
    else none
  | _ => none

/-- Embedding of `re.match(r'([1-4]T)(\d{2,})', basename_part)` from
`parse_filename`, returning `(group(1), group(2))`. -/
def matchTrimesterYear : List Char → Option (List Char × List Char)
  | q :: 'T' :: rest =>
    if isQuarterChar q then
      if 2 ≤ (rest.takeWhile Char.isDigit).length then
        some ([q, 'T'], rest.takeWhile Char.isDigit)
      else none
    else none
  | _ => none

/-- The `trimester_map` dictionary of `compile_reports.parse_filename`. -/
def trimester_map (s : List Char) : Option Nat :=
  if s = ['1', 'T'] then some 1
  else if s = ['2', 'T'] then some 2
  else if s = ['3', 'T'] then some 3
  else if s = ['4', 'T'] then some 4
  else none

/-- `os.path.basename` on a POSIX path: everything after the last slash. -/
def basename (p : List Char) : List Char :=
  (p.reverse.takeWhile (fun c => decide (c ≠ '/'))).reverse

/-- The record returned by `compile_reports.parse_filename`. -/
structure Parsed where
  filepath : List Char
  year : Nat
  trimester : Nat
  page : Nat
  original_basename : List Char
deriving Repr, DecidableEq

/-- `compile_reports.parse_filename`: outer regex match on the basename, then
the inner `([1-4]T)(\d{2,})` match and the trimester dictionary lookup. -/
def parse_filename (filepath : List Char) : Option Parsed :=
  match matchOuter (basename filepath) with
  | none => none
  | some (basename_part, page_str) =>
    match matchTrimesterYear basename_part with
    | none => none
    | some (trimester_str, year_str) =>
      match trimester_map trimester_str with
      | none => none
      | some trimester_num =>
        some ⟨filepath, digitsToNat year_str, trimester_num,
              digitsToNat page_str, basename_part⟩

/-- The record returned by the two sheet-oriented filename parsers. -/
structure ParsedSheet where
  trimester_id : List Char
  page : Nat
  filepath : List Char
deriving Repr, DecidableEq

/-- `csv_to_excel_by_page.parse_filename_for_page_sheet`. -/
def parse_filename_for_page_sheet (filepath : List Char) : Option ParsedSheet :=
  match matchOuter (basename filepath) with
  | none => none
  | some (tid, page_str) => some ⟨tid, digitsToNat page_str, filepath⟩

/-- `csv_to_excel_by_trimester.parse_filename_for_trimester_sheet`
(textually identical to the per-page variant). -/
def parse_filename_for_trimester_sheet (filepath : List Char) : Option ParsedSheet :=
  match matchOuter (basename filepath) with
  | none => none
  | some (tid, page_str) => some ⟨tid, digitsToNat page_str, filepath⟩

/-- Spec-side form of the claims' filename pattern `qTyy_pn_all_tables.csv`:
`q` is a quarter digit `1`-`4`, `yy` at least two digits, `pp` at least one
digit, and `rest` is whatever follows the literal (`rest = []` for an exact
match of the whole basename). -/
def fnameDecomp (s : List Char) (q : Char) (yy pp rest : List Char) : Prop :=
  isQuarterChar q ∧ (∀ c ∈ yy, c.isDigit) ∧ 2 ≤ yy.length ∧
  (∀ c ∈ pp, c.isDigit) ∧ 1 ≤ pp.length ∧
  s = q :: 'T' :: (yy ++ '_' :: 'p' :: (pp ++ (allTablesLit ++ rest)))

/-- The claims' exact filename form: the whole basename is
`qTyy_pn_all_tables.csv`. -/
def fnameExact (s : List Char) : Prop := ∃ q yy pp, fnameDecomp s q yy pp []

/-! ### Sort keys and chronological order -/

/-- Python tuple comparison `(a1, a2) <= (b1, b2)`: lexicographic. -/
def lexLe2 (a b : Nat × Nat) : Prop :=
  a.1 < b.1 ∨ (a.1 = b.1 ∧ a.2 ≤ b.2)

instance (a b : Nat × Nat) : Decidable (lexLe2 a b) := by
  unfold lexLe2; infer_instance

/-- Python tuple comparison on triples: lexicographic. -/
def lexLe3 (a b : Nat × Nat × Nat) : Prop :=
  a.1 < b.1 ∨ (a.1 = b.1 ∧ lexLe2 a.2 b.2)

instance (a b : Nat × Nat × Nat) : Decidable (lexLe3 a b) := by
  unfold lexLe3; infer_instance

/-- `csv_to_excel_by_trimester.sort_key_trimester`: re-parse the trimester id
and return `(year, quarter)`, with the fallback `(9999, 9)`. -/
def sort_key_trimester (tid : List Char) : Nat × Nat :=
  match matchQuarterYear tid with
  | some (q, yy) => (digitsToNat yy, digitVal q)
  | none => (9999, 9)

/-- `csv_to_excel_by_page.sort_key_page_sheet`: re-parse the trimester id and
return `(year, quarter, page)`, with the fallback `(9999, 9, page)`. -/
def sort_key_page_sheet (fd : ParsedSheet) : Nat × Nat × Nat :=
  match matchQuarterYear fd.trimester_id with
  | some (q, yy) => (digitsToNat yy, digitVal q, fd.page)
  | none => (9999, 9, fd.page)

/-- The sort key `(x['year'], x['trimester'], x['page'])` of
`compile_csv_reports`. -/
def compileKey (p : Parsed) : Nat × Nat × Nat := (p.year, p.trimester, p.page)

/-- Spec-side quarter of a trimester id `qTyy`: the numeric value of its
first character. -/
def tidQuarter (tid : List Char) : Nat := digitVal (tid.headD ' ')

/-- Spec-side year of a trimester id `qTyy`: the value of the digit run after
`qT`. -/
def tidYear (tid : List Char) : Nat :=
  digitsToNat ((tid.drop 2).takeWhile Char.isDigit)

/-! ### DataFrames and CSV reading -/

/-- A cell of a pandas dataframe; `none` models NaN. -/
abbrev Cell := Option String

/-- A pandas dataframe: column labels and rows of cells.  The row index is
`0, 1, 2, …` implicitly (every frame the scripts build has a range index). -/
structure DataFrame where
  header : List String
  rows : List (List Cell)
deriving Repr, DecidableEq

/-- `df.empty`: true when the frame has no rows or no columns. -/
def DataFrame.isEmptyDf (df : DataFrame) : Bool :=
  df.rows.isEmpty || df.header.isEmpty

/-- Outcome of `pd.read_csv` on one file — an input to the aggregators.
`ok df hdrCols` is a successful read; `hdrCols` models the second
`pd.read_csv(nrows=0)` header probe `compile_csv_reports` performs when `df`
is empty (`none` models that probe raising).  `emptyData` is
`pd.errors.EmptyDataError`; `err` is any other exception, carrying its
message. -/
inductive ReadOutcome where
  | ok (df : DataFrame) (hdrCols : Option Nat)
  | emptyData
  | err (msg : String)
deriving Repr, DecidableEq

/-- The dataframe held after the read attempt of `compile_csv_reports`
(`pd.DataFrame()` when the read raised). -/
def dfOf : ReadOutcome → DataFrame
  | .ok df _ => df
  | .emptyData => ⟨[], []⟩
  | .err _ => ⟨[], []⟩

/-- `num_original_cols` as computed by `compile_csv_reports` lines 79-100. -/
def numOriginalCols : ReadOutcome → Nat
  | .ok df hdrCols =>
    if df.isEmptyDf then
      match hdrCols with
      | some n => if 0 < n then n else 1
      | none => 1
    else df.header.length
  | .emptyData => 1
  | .err _ => 1

/-- `fillna('')` on one cell. -/
def fillCell : Cell → Cell
  | none => some ""
  | some s => some s

/-- `df.fillna('')`. -/
def DataFrame.fillna (df : DataFrame) : DataFrame :=
  ⟨df.header, df.rows.map (fun r => r.map fillCell)⟩

/-! ### compile_reports.compile_csv_reports -/

/-- One step of the `max_rows` accumulation: empty frames are skipped. -/
def maxRowsStep (acc : Nat) (e : Parsed × ReadOutcome) : Nat :=
  if (dfOf e.2).isEmptyDf then acc else max acc (dfOf e.2).rows.length

/-- `max_rows`: the maximum row count over the non-empty dataframes. -/
def maxRowsOf (entries : List (Parsed × ReadOutcome)) : Nat :=
  entries.foldl maxRowsStep 0

/-- `file_prefix = f"{original_basename}_p{page}"`. -/
def filePfx (fi : Parsed) : String :=
  String.mk (fi.original_basename ++ '_' :: 'p' :: natToDigits fi.page)

/-- The padding loop body of `compile_csv_reports` (lines 114-136): an empty
frame becomes a placeholder block of `''` strings; a non-empty frame is
padded (or, dead in practice, truncated) to `mr` rows, its columns renamed
with the file prefix, and `fillna('')` applied. -/
def padEntry (mr : Nat) (e : Parsed × ReadOutcome) : DataFrame :=
  DataFrame.fillna
    (if (dfOf e.2).isEmptyDf then
      ⟨(List.range (numOriginalCols e.2)).map
          (fun j => filePfx e.1 ++ "_col" ++ String.mk (natToDigits j)),
       List.replicate mr (List.replicate (numOriginalCols e.2) (some ""))⟩
    else
      ⟨(dfOf e.2).header.map (fun c => filePfx e.1 ++ "_" ++ c),
       if (dfOf e.2).rows.length < mr then
         (dfOf e.2).rows ++
           List.replicate (mr - (dfOf e.2).rows.length)
             (List.replicate (dfOf e.2).header.length none)
       else if mr < (dfOf e.2).rows.length then (dfOf e.2).rows.take mr
       else (dfOf e.2).rows⟩)

/-- `pd.concat(axis=1)` of frames that all carry the same range index
`0, …, n-1`: headers concatenated, rows zipped side by side. -/
def hconcat (n : Nat) (dfs : List DataFrame) : DataFrame :=
  ⟨dfs.flatMap (fun d => d.header),
   (List.range n).map (fun i => dfs.flatMap (fun d => d.rows.getD i []))⟩

/-- The chronologically sorted parsed files of `compile_csv_reports`. -/
def compileSorted (fps : List (List Char)) : List Parsed :=
  (fps.filterMap parse_filename).mergeSort
    (fun a b => decide (lexLe3 (compileKey a) (compileKey b)))

/-- The `dataframes_details` list: each sorted file paired with its read
outcome. -/
def compileEntries (read : List Char → ReadOutcome) (fps : List (List Char)) :
    List (Parsed × ReadOutcome) :=
  (compileSorted fps).map (fun fi => (fi, read fi.filepath))

/-- What `compile_csv_reports` leaves on disk. -/
inductive CompileResult where
  /-- no `_all_tables.csv` file found: early return, nothing written -/
  | noFiles
  /-- no filename parsed: early return, nothing written -/
  | noParsed
  /-- every file empty or unreadable: an empty CSV is written -/
  | emptyOutput
  /-- the compiled side-by-side CSV -/
  | output (df : DataFrame)
deriving Repr

/-- `compile_reports.compile_csv_reports`, with the glob result `fps` and the
filesystem `read` as inputs. -/
def compile_csv_reports (read : List Char → ReadOutcome)
    (fps : List (List Char)) : CompileResult :=
  if fps.isEmpty then .noFiles
  else if (fps.filterMap parse_filename).isEmpty then .noParsed
  else
    if maxRowsOf (compileEntries read fps) = 0 then .emptyOutput
    else .output (hconcat (maxRowsOf (compileEntries read fps))
      ((compileEntries read fps).map (padEntry (maxRowsOf (compileEntries read fps)))))

/-! ### csv_to_excel_by_page.create_excel_by_page -/

/-- The sorted parsed files of `create_excel_by_page`. -/
def pageSheetSorted (fps : List (List Char)) : List ParsedSheet :=
  (fps.filterMap parse_filename_for_page_sheet).mergeSort
    (fun a b => decide (lexLe3 (sort_key_page_sheet a) (sort_key_page_sheet b)))

/-- The one-row error frame `pd.DataFrame([{'error': str(e)}])`. -/
def errorDf (msg : String) : DataFrame := ⟨["error"], [[some msg]]⟩

/-- The sheet written for one parsed file by `create_excel_by_page`:
`(sheet name, sheet contents)`.  Sheet names are truncated to 31 characters;
a read error produces an `ERR_`-prefixed sheet holding the message. -/
def pageSheetFor (read : List Char → ReadOutcome) (fd : ParsedSheet) :
    List Char × DataFrame :=
  match read fd.filepath with
  | .ok df _ =>
    if df.isEmptyDf then ((fd.trimester_id ++ '_' :: 'p' :: natToDigits fd.page).take 31, ⟨[], []⟩)
    else ((fd.trimester_id ++ '_' :: 'p' :: natToDigits fd.page).take 31, df)
  | .emptyData => ((fd.trimester_id ++ '_' :: 'p' :: natToDigits fd.page).take 31, ⟨[], []⟩)
  | .err msg =>
    (('E' :: 'R' :: 'R' :: '_' ::
        (fd.trimester_id ++ '_' :: 'p' :: natToDigits fd.page).take 31).take 31,
     errorDf msg)

/-- `csv_to_excel_by_page.create_excel_by_page`: `none` when the early
returns fire (no files / nothing parsed, no workbook written), otherwise the
sheets in the order written. -/
def create_excel_by_page (read : List Char → ReadOutcome)
    (fps : List (List Char)) : Option (List (List Char × DataFrame)) :=
  if fps.isEmpty then none
  else if (fps.filterMap parse_filename_for_page_sheet).isEmpty then none
  else some ((pageSheetSorted fps).map (pageSheetFor read))

/-! ### csv_to_excel_by_trimester.create_excel_by_trimester -/

/-- The trimester ids in first-insertion order, as the `defaultdict` keys of
`create_excel_by_trimester` iterate. -/
def firstOccurrenceKeys (l : List ParsedSheet) : List (List Char) :=
  l.foldl
    (fun acc d => if d.trimester_id ∈ acc then acc else acc ++ [d.trimester_id])
    []

/-- The files grouped under one trimester id, sorted by page number. -/
def trimesterFiles (parsed : List ParsedSheet) (tid : List Char) :
    List ParsedSheet :=
  (parsed.filter (fun x => decide (x.trimester_id = tid))).mergeSort
    (fun a b => decide (a.page ≤ b.page))

/-- Column-label union in order of first appearance, as
`pd.concat(join='outer', sort=False)` aligns columns. -/
def unionHeaders (dfs : List DataFrame) : List String :=
  dfs.foldl (fun acc d => acc ++ d.header.filter (fun c => decide (c ∉ acc))) []

/-- The value a row contributes to column `c` after alignment: its cell when
the row's frame has the label, NaN otherwise. -/
def colValue (hdr : List String) (r : List Cell) (c : String) : Cell :=
  match hdr.findIdx? (fun h => h == c) with
  | some j => r.getD j none
  | none => none

/-- `pd.concat(dfs, ignore_index=True)` (vertical): labels united in order of
appearance, every row re-indexed to the united labels, rows stacked. -/
def concatAligned (dfs : List DataFrame) : DataFrame :=
  ⟨unionHeaders dfs,
   dfs.flatMap (fun d => d.rows.map (fun r => (unionHeaders dfs).map (colValue d.header r)))⟩

/-- The dataframe a file contributes to its trimester sheet: only a
successful, non-empty read contributes; empty frames, `EmptyDataError` and
other read errors are skipped. -/
def trimesterRead (read : List Char → ReadOutcome) (fd : ParsedSheet) :
    Option DataFrame :=
  match read fd.filepath with
  | .ok df _ => if df.isEmptyDf then none else some df
  | .emptyData => none
  | .err _ => none

/-- `sorted_trimester_ids`: the grouped keys sorted by `sort_key_trimester`. -/
def sortedTrimesterIds (fps : List (List Char)) : List (List Char) :=
  (firstOccurrenceKeys (fps.filterMap parse_filename_for_trimester_sheet)).mergeSort
    (fun a b => decide (lexLe2 (sort_key_trimester a) (sort_key_trimester b)))

/-- `trimester_dataframes`: what one trimester's page-sorted files contribute. -/
def trimesterDfs (read : List Char → ReadOutcome) (parsed : List ParsedSheet)
    (tid : List Char) : List DataFrame :=
  (trimesterFiles parsed tid).filterMap (trimesterRead read)

/-- `csv_to_excel_by_trimester.create_excel_by_trimester`: `none` when the
early returns fire, otherwise the `(sheet name, sheet contents)` list; a
trimester whose pages all contributed nothing is skipped. -/
def create_excel_by_trimester (read : List Char → ReadOutcome)
    (fps : List (List Char)) : Option (List (List Char × DataFrame)) :=
  if fps.isEmpty then none
  else if (fps.filterMap parse_filename_for_trimester_sheet).isEmpty then none
  else some
    ((sortedTrimesterIds fps).filterMap
      (fun tid =>
        if (trimesterDfs read (fps.filterMap parse_filename_for_trimester_sheet) tid).isEmpty
        then none
        else some (tid.take 31,
          concatAligned
            (trimesterDfs read (fps.filterMap parse_filename_for_trimester_sheet) tid))))

/-! ### docling_excel_extractor.convert_markdown_to_csv

The Markdown/HTML table extraction itself (`pd.read_html`) is an external
collaborator; its result, the list of raw dataframes `dfs`, is the input
here. -/

/-- `df.dropna(how='all', axis=0)`: drop the rows whose cells are all NaN. -/
def dropAllNanRows (df : DataFrame) : DataFrame :=
  ⟨df.header, df.rows.filter (fun r => r.any (fun c => c.isSome))⟩

/-- A column index survives `dropna(how='all', axis=1)` when some row has a
value there. -/
def keepCol (rows : List (List Cell)) (j : Nat) : Bool :=
  rows.any (fun r => (r.getD j none).isSome)

/-- `df.dropna(how='all', axis=1)`: drop the columns whose cells are all NaN. -/
def dropAllNanCols (df : DataFrame) : DataFrame :=
  ⟨((List.range df.header.length).filter (keepCol df.rows)).map
      (fun j => df.header.getD j ""),
   df.rows.map (fun r =>
      ((List.range df.header.length).filter (keepCol df.rows)).map
        (fun j => r.getD j none))⟩

/-- The cleanup applied to each parsed table: drop all-NaN rows, then all-NaN
columns (`reset_index(drop=True)` is the identity in this model). -/
def cleanTable (df : DataFrame) : DataFrame := dropAllNanCols (dropAllNanRows df)

/-- The individual `table_{i}.csv` files written: `(i, cleaned table)` with
`i` the 1-based position among all parsed tables; empty-after-cleaning
tables are skipped. -/
def savedTables (dfs : List DataFrame) : List (Nat × DataFrame) :=
  dfs.enum.filterMap (fun p =>
    if (cleanTable p.2).isEmptyDf then none else some (p.1 + 1, cleanTable p.2))

/-- `cleaned_and_saved_tables`: the non-empty cleaned tables, in order. -/
def cleanedKept (dfs : List DataFrame) : List DataFrame :=
  (dfs.map cleanTable).filter (fun c => !c.isEmptyDf)

/-- The separator `pd.DataFrame([{}])`: one row, no columns. -/
def sepDf : DataFrame := ⟨[], [[]]⟩

/-- The `all_tables` frame written by `convert_markdown_to_csv`: `none` when
no non-empty cleaned table exists (no file written); the single table when
there is exactly one; otherwise the concatenation with a separator frame
between consecutive tables. -/
def allTablesDf (dfs : List DataFrame) : Option DataFrame :=
  match cleanedKept dfs with
  | [] => none
  | [t] => some t
  | t :: t2 :: ts => some (concatAligned (List.intersperse sepDf (t :: t2 :: ts)))

/-! ### Extractor output paths and the aggregators' glob -/

/-- The per-page CSV directory name `f"csv_{pdf_basename}_p{page}"` chosen by
the extractor's batch loop. -/
def extractorCsvDirName (b : List Char) (n : Nat) : List Char :=
  'c' :: 's' :: 'v' :: '_' :: (b ++ '_' :: 'p' :: natToDigits n)

/-- The concatenated CSV filename `f"{pdf_basename}_p{page}_all_tables.csv"`
written by `convert_markdown_to_csv`. -/
def extractorCsvFileName (b : List Char) (n : Nat) : List Char :=
  b ++ '_' :: 'p' :: (natToDigits n ++ allTablesLit)

/-- The written CSV's path relative to `batch_processing_output`. -/
def extractorCsvRelPath (b : List Char) (n : Nat) : List Char :=
  extractorCsvDirName b n ++ '/' :: extractorCsvFileName b n

/-- Spec-side meaning of the glob pattern `csv_*/*_all_tables.csv` used by
all three aggregation scripts: each `*` matches any run of characters
without a path separator. -/
def globMatchesPattern (p : List Char) : Prop :=
  ∃ x y, p = 'c' :: 's' :: 'v' :: '_' :: (x ++ '/' :: (y ++ allTablesLit)) ∧
    '/' ∉ x ∧ '/' ∉ y


/-- A trimester id of the shape `qTyy` the parsers produce (spec-side). -/
def wellFormedTid (tid : List Char) : Prop :=
  ∃ q yy, tid = q :: 'T' :: yy ∧ isQuarterChar q ∧
    (∀ c ∈ yy, c.isDigit) ∧ 2 ≤ yy.length

/-! ### Basic lemmas about digit runs -/

theorem takeWhile_run {p : α → Bool} :
    ∀ (a b : List α), (∀ c ∈ a, p c) → (∀ c, b.head? = some c → ¬ p c) →
      (a ++ b).takeWhile p = a ∧ (a ++ b).dropWhile p = b := by
  intro a
  induction a with
  | nil =>
    intro b _ hb
    simp only [List.nil_append]
    cases b with
    | nil => simp
    | cons c t =>
      have hc : ¬ p c := hb c rfl
      simp [List.takeWhile_cons, List.dropWhile_cons, hc]
  | cons x xs ih =>
    intro b ha hb
    have hx : p x := ha x (by simp)
    have ih' := ih b (fun c hc => ha c (by simp [hc])) hb
    simp [List.takeWhile_cons, List.dropWhile_cons, hx, ih'.1, ih'.2]

theorem digitChar_isDigit {d : Nat} (h : d < 10) : (Nat.digitChar d).isDigit := by
  interval_cases d <;> decide

theorem digitVal_digitChar {d : Nat} (h : d < 10) : digitVal (Nat.digitChar d) = d := by
  interval_cases d <;> decide

theorem digitChar_ne_slash {d : Nat} (h : d < 10) : Nat.digitChar d ≠ '/' := by
  interval_cases d <;> decide

theorem digitsToNat_append_singleton (a : List Char) (c : Char) :
    digitsToNat (a ++ [c]) = 10 * digitsToNat a + digitVal c := by
  simp [digitsToNat, List.foldl_append]

theorem natToDigitsAux_fuel :
    ∀ (n f1 f2 : Nat) (acc : List Char), n < f1 → n < f2 →
      natToDigitsAux f1 n acc = natToDigitsAux f2 n acc := by
  intro n
  induction n using Nat.strong_induction_on with
  | _ n ih =>
    intro f1 f2 acc h1 h2
    match f1, f2 with
    | g1 + 1, g2 + 1 =>
      simp only [natToDigitsAux]
      by_cases hn : n < 10
      · simp [hn]
      · simp only [hn, if_false]
        exact ih (n / 10) (Nat.div_lt_self (by omega) (by omega)) g1 g2 _
          (by have := Nat.div_lt_self (n := n) (by omega) (by omega : 1 < 10); omega)
          (by have := Nat.div_lt_self (n := n) (by omega) (by omega : 1 < 10); omega)

theorem natToDigitsAux_acc :
    ∀ (n f : Nat) (acc : List Char), n < f →
      natToDigitsAux f n acc = natToDigitsAux f n [] ++ acc := by
  intro n
  induction n using Nat.strong_induction_on with
  | _ n ih =>
    intro f acc hf
    match f with
    | g + 1 =>
      simp only [natToDigitsAux]
      by_cases hn : n < 10
      · simp [hn]
      · simp only [hn, if_false]
        have hlt : n / 10 < n := Nat.div_lt_self (by omega) (by omega)
        by_cases hg : n / 10 < g
        · rw [ih (n / 10) hlt g _ hg, ih (n / 10) hlt g [Nat.digitChar (n % 10)] hg,
            List.append_assoc]
          rfl
        · -- fuel exhausted is impossible: n < g + 1 gives n ≤ g, so n / 10 < g
          exact absurd (by omega : n / 10 < g) hg

/-- The defining recurrence of `natToDigits`. -/
theorem natToDigits_eq (n : Nat) :
    natToDigits n =
      if n < 10 then [Nat.digitChar n]
      else natToDigits (n / 10) ++ [Nat.digitChar (n % 10)] := by
  by_cases hn : n < 10
  · simp [natToDigits, natToDigitsAux, hn]
  · have hlt : n / 10 < n := Nat.div_lt_self (by omega) (by omega)
    rw [if_neg hn]
    have h1 : natToDigits n =
        natToDigitsAux n (n / 10) [Nat.digitChar (n % 10)] := by
      simp [natToDigits, natToDigitsAux, hn]
    rw [h1, natToDigitsAux_acc (n / 10) n [Nat.digitChar (n % 10)] (by omega),
      natToDigitsAux_fuel (n / 10) n (n / 10 + 1) [] (by omega) (by omega)]
    rfl

theorem natToDigits_all_digits (n : Nat) : ∀ c ∈ natToDigits n, c.isDigit := by
  induction n using Nat.strong_induction_on with
  | _ n ih =>
    rw [natToDigits_eq]
    split
    · next h => simpa using digitChar_isDigit h
    · next h =>
      intro c hc
      rcases List.mem_append.1 hc with h1 | h1
      · exact ih (n / 10) (Nat.div_lt_self (by omega) (by omega)) c h1
      · simp only [List.mem_singleton] at h1
        subst h1
        exact digitChar_isDigit (Nat.mod_lt _ (by omega))

theorem natToDigits_ne_nil (n : Nat) : natToDigits n ≠ [] := by
  rw [natToDigits_eq]
  split
  · simp
  · simp

theorem digitsToNat_natToDigits (n : Nat) : digitsToNat (natToDigits n) = n := by
  induction n using Nat.strong_induction_on with
  | _ n ih =>
    rw [natToDigits_eq]
    split
    · next h =>
      show digitsToNat ([] ++ [Nat.digitChar n]) = n
      rw [digitsToNat_append_singleton, digitVal_digitChar h]
      simp [digitsToNat]
    · next h =>
      rw [digitsToNat_append_singleton,
        ih (n / 10) (Nat.div_lt_self (by omega) (by omega)),
        digitVal_digitChar (Nat.mod_lt _ (by omega))]
      omega

/-! ### Characterization of the filename regex matches -/

theorem matchOuter_eq_some_iff {s : List Char} {g1 g2 : List Char} :
    matchOuter s = some (g1, g2) ↔
      ∃ q yy pp rest, fnameDecomp s q yy pp rest ∧ g1 = q :: 'T' :: yy ∧ g2 = pp := by
  constructor
  · intro h
    rw [matchOuter.eq_def] at h
    split at h
    next q rest =>
      split at h
      · next hq =>
        split at h
        · next r2 heq =>
          split at h
          · next hcond =>
            obtain ⟨hyyl, hppl, hpre⟩ := hcond
            obtain ⟨rest', hrest'⟩ :=
              (List.isPrefixOf_iff_prefix.1 hpre : allTablesLit <+: _)
            simp only [Option.some.injEq, Prod.mk.injEq] at h
            refine ⟨q, rest.takeWhile Char.isDigit, r2.takeWhile Char.isDigit, rest',
              ⟨hq, fun c hc => List.mem_takeWhile_imp hc, hyyl,
               fun c hc => List.mem_takeWhile_imp hc, hppl, ?_⟩, h.1.symm, h.2.symm⟩
            have h2 : r2 = r2.takeWhile Char.isDigit ++ (allTablesLit ++ rest') := by
              conv_lhs => rw [← List.takeWhile_append_dropWhile Char.isDigit r2]
              rw [hrest']
            have h1 : rest = rest.takeWhile Char.isDigit ++
                ('_' :: 'p' :: (r2.takeWhile Char.isDigit ++ (allTablesLit ++ rest'))) := by
              conv_lhs => rw [← List.takeWhile_append_dropWhile Char.isDigit rest]
              rw [heq, ← h2]
            exact congrArg (fun t => q :: 'T' :: t) h1
          · exact absurd h (by simp)
        · exact absurd h (by simp)
      · exact absurd h (by simp)
    all_goals exact absurd h (by simp)
  · rintro ⟨q, yy, pp, rest, ⟨hq, hyy, hyyl, hpp, hppl, hs⟩, hg1, hg2⟩
    rw [hg1, hg2]
    subst hs
    have hyyrun := takeWhile_run (p := Char.isDigit) yy
      ('_' :: 'p' :: (pp ++ (allTablesLit ++ rest))) hyy
      (by intro c hc; simp only [List.head?_cons, Option.some.injEq] at hc; subst hc; decide)
    have hpprun := takeWhile_run (p := Char.isDigit) pp (allTablesLit ++ rest)
      hpp (by
        intro c hc
        simp only [allTablesLit, List.cons_append, List.head?_cons, Option.some.injEq] at hc
        subst hc; decide)
    have hpre : allTablesLit.isPrefixOf (allTablesLit ++ rest) :=
      List.isPrefixOf_iff_prefix.2 ⟨rest, rfl⟩
    simp only [matchOuter, hq, if_true, hyyrun.1, hyyrun.2, hpprun.1, hpprun.2]
    simp [hyyl, hppl, hpre]

theorem matchQuarterYear_of_run {q : Char} {yy : List Char} (hq : isQuarterChar q)
    (hyy : ∀ c ∈ yy, c.isDigit) (hyyl : 2 ≤ yy.length) :
    matchQuarterYear (q :: 'T' :: yy) = some (q, yy) := by
  have hrun := takeWhile_run (p := Char.isDigit) yy [] hyy (by intro c hc; simp at hc)
  rw [List.append_nil] at hrun
  simp [matchQuarterYear, hq, hrun.1, hyyl]

theorem matchTrimesterYear_of_run {q : Char} {yy : List Char} (hq : isQuarterChar q)
    (hyy : ∀ c ∈ yy, c.isDigit) (hyyl : 2 ≤ yy.length) :
    matchTrimesterYear (q :: 'T' :: yy) = some ([q, 'T'], yy) := by
  have hrun := takeWhile_run (p := Char.isDigit) yy [] hyy (by intro c hc; simp at hc)
  rw [List.append_nil] at hrun
  simp [matchTrimesterYear, hq, hrun.1, hyyl]

theorem trimester_map_quarter {q : Char} (hq : isQuarterChar q) :
    trimester_map [q, 'T'] = some (digitVal q) := by
  rcases hq with h | h | h | h <;> subst h <;> decide

/-- `parse_filename` characterized against the spec-side decomposition of the
basename. -/
theorem parse_filename_eq_some_iff {s : List Char} {r : Parsed} :
    parse_filename s = some r ↔
      ∃ q yy pp rest, fnameDecomp (basename s) q yy pp rest ∧
        r = ⟨s, digitsToNat yy, digitVal q, digitsToNat pp, q :: 'T' :: yy⟩ := by
  constructor
  · intro h
    simp only [parse_filename] at h
    split at h
    · exact absurd h (by simp)
    · next g1 g2 hm =>
      obtain ⟨q, yy, pp, rest, hd, hg1, hg2⟩ := matchOuter_eq_some_iff.1 hm
      subst hg1
      rw [hg2] at h
      simp only [matchTrimesterYear_of_run hd.1 hd.2.1 hd.2.2.1,
        trimester_map_quarter hd.1, Option.some.injEq] at h
      exact ⟨q, yy, pp, rest, hd, h.symm⟩
  · rintro ⟨q, yy, pp, rest, hd, hr⟩
    have hm : matchOuter (basename s) = some (q :: 'T' :: yy, pp) :=
      matchOuter_eq_some_iff.2 ⟨q, yy, pp, rest, hd, rfl, rfl⟩
    simp only [parse_filename, hm,
      matchTrimesterYear_of_run hd.1 hd.2.1 hd.2.2.1, trimester_map_quarter hd.1]
    rw [hr]

/-- `parse_filename_for_page_sheet` characterized the same way. -/
theorem parse_page_sheet_eq_some_iff {s : List Char} {r : ParsedSheet} :
    parse_filename_for_page_sheet s = some r ↔
      ∃ q yy pp rest, fnameDecomp (basename s) q yy pp rest ∧
        r = ⟨q :: 'T' :: yy, digitsToNat pp, s⟩ := by
  constructor
  · intro h
    simp only [parse_filename_for_page_sheet] at h
    split at h
    · exact absurd h (by simp)
    · next g1 g2 hm =>
      obtain ⟨q, yy, pp, rest, hd, hg1, hg2⟩ := matchOuter_eq_some_iff.1 hm
      subst hg1
      rw [hg2] at h
      simp only [Option.some.injEq] at h
      exact ⟨q, yy, pp, rest, hd, h.symm⟩
  · rintro ⟨q, yy, pp, rest, hd, hr⟩
    have hm : matchOuter (basename s) = some (q :: 'T' :: yy, pp) :=
      matchOuter_eq_some_iff.2 ⟨q, yy, pp, rest, hd, rfl, rfl⟩
    simp only [parse_filename_for_page_sheet, hm]
    rw [hr]

/-- `parse_filename_for_trimester_sheet` characterized the same way. -/
theorem parse_trimester_sheet_eq_some_iff {s : List Char} {r : ParsedSheet} :
    parse_filename_for_trimester_sheet s = some r ↔
      ∃ q yy pp rest, fnameDecomp (basename s) q yy pp rest ∧
        r = ⟨q :: 'T' :: yy, digitsToNat pp, s⟩ := by
  have h : parse_filename_for_trimester_sheet s = parse_filename_for_page_sheet s := rfl
  rw [h]
  exact parse_page_sheet_eq_some_iff

theorem lexLe2_trans {a b c : Nat × Nat} (h1 : lexLe2 a b) (h2 : lexLe2 b c) :
    lexLe2 a c := by
  rcases h1 with h1 | ⟨h1, h1'⟩ <;> rcases h2 with h2 | ⟨h2, h2'⟩ <;>
    unfold lexLe2 <;> omega

theorem lexLe2_total (a b : Nat × Nat) : lexLe2 a b ∨ lexLe2 b a := by
  unfold lexLe2; omega

theorem lexLe3_trans {a b c : Nat × Nat × Nat} (h1 : lexLe3 a b) (h2 : lexLe3 b c) :
    lexLe3 a c := by
  rcases h1 with h1 | ⟨h1, h1'⟩ <;> rcases h2 with h2 | ⟨h2, h2'⟩
  · exact Or.inl (by omega)
  · exact Or.inl (by omega)
  · exact Or.inl (by omega)
  · exact Or.inr ⟨by omega, lexLe2_trans h1' h2'⟩

theorem lexLe3_total (a b : Nat × Nat × Nat) : lexLe3 a b ∨ lexLe3 b a := by
  unfold lexLe3 lexLe2; omega


/-! ### Claim C1 — the filename parsers -/

/-- C1 counterexample: the basename `1T22_p46_all_tables.csvx` is not of the
exact form `qTyy_pn_all_tables.csv`, yet `parse_filename` returns a record
rather than `None`, because `re.match` anchors only at the start of the
string. -/
theorem c1_prefix_match_counterexample :
    ¬ fnameExact (basename ("1T22_p46_all_tables.csvx".toList)) ∧
    parse_filename ("1T22_p46_all_tables.csvx".toList) =
      some ⟨"1T22_p46_all_tables.csvx".toList, 22, 1, 46, ['1', 'T', '2', '2']⟩ := by
  constructor
  · rintro ⟨q, yy, pp, hd⟩
    have hm : matchOuter (basename ("1T22_p46_all_tables.csvx".toList)) =
        some (q :: 'T' :: yy, pp) :=
      matchOuter_eq_some_iff.2 ⟨q, yy, pp, [], hd, rfl, rfl⟩
    have hm' : matchOuter (basename ("1T22_p46_all_tables.csvx".toList)) =
        some (['1', 'T', '2', '2'], ['4', '6']) := by decide
    rw [hm'] at hm
    simp only [Option.some.injEq, Prod.mk.injEq] at hm
    obtain ⟨hm1, hm2⟩ := hm
    injection hm1 with e1 e2
    injection e2 with e3 e4
    subst e1
    subst e4
    subst hm2
    exact absurd hd.2.2.2.2.2 (by decide)
  · decide

/-- C1 (amended): `re.match` anchors only at the start of the basename, so
each parser returns a record exactly when the basename BEGINS WITH a match of
`qTyy_pn_all_tables.csv`; the record then carries `year = int(yy)`,
`trimester = q`, `page = int(n)` and `original_basename`/`trimester_id`
equal to `qTyy`, and every other basename yields `None`. -/
theorem c1_filename_parsers_characterized (s : List Char) :
    (∀ r : Parsed, parse_filename s = some r ↔
      ∃ q yy pp rest, fnameDecomp (basename s) q yy pp rest ∧
        r = ⟨s, digitsToNat yy, digitVal q, digitsToNat pp, q :: 'T' :: yy⟩) ∧
    (∀ r : ParsedSheet, parse_filename_for_page_sheet s = some r ↔
      ∃ q yy pp rest, fnameDecomp (basename s) q yy pp rest ∧
        r = ⟨q :: 'T' :: yy, digitsToNat pp, s⟩) ∧
    (∀ r : ParsedSheet, parse_filename_for_trimester_sheet s = some r ↔
      ∃ q yy pp rest, fnameDecomp (basename s) q yy pp rest ∧
        r = ⟨q :: 'T' :: yy, digitsToNat pp, s⟩) :=
  ⟨fun _ => parse_filename_eq_some_iff,
   fun _ => parse_page_sheet_eq_some_iff,
   fun _ => parse_trimester_sheet_eq_some_iff⟩


/-! ### Well-formed trimester ids and sort keys -/


theorem wellFormedTid_of_parse {s : List Char} {x : ParsedSheet}
    (h : parse_filename_for_page_sheet s = some x) :
    wellFormedTid x.trimester_id := by
  obtain ⟨q, yy, pp, rest, hd, hr⟩ := parse_page_sheet_eq_some_iff.1 h
  exact ⟨q, yy, by rw [hr], hd.1, hd.2.1, hd.2.2.1⟩

theorem takeWhile_digits_self {yy : List Char} (h : ∀ c ∈ yy, c.isDigit) :
    yy.takeWhile Char.isDigit = yy := by
  have h' := takeWhile_run (p := Char.isDigit) yy [] h (by intro c hc; simp at hc)
  simpa using h'.1

theorem matchQuarterYear_of_wf {tid : List Char} (h : wellFormedTid tid) :
    ∃ q yy, tid = q :: 'T' :: yy ∧ isQuarterChar q ∧
      matchQuarterYear tid = some (q, yy) ∧ digitsToNat yy = tidYear tid ∧
      digitVal q = tidQuarter tid := by
  obtain ⟨q, yy, htid, hq, hyy, hlen⟩ := h
  subst htid
  refine ⟨q, yy, rfl, hq, matchQuarterYear_of_run hq hyy hlen, ?_, rfl⟩
  simp [tidYear, takeWhile_digits_self hyy]

theorem sort_key_trimester_eq {tid : List Char} (h : wellFormedTid tid) :
    sort_key_trimester tid = (tidYear tid, tidQuarter tid) ∧
    matchQuarterYear tid ≠ none ∧
    1 ≤ tidQuarter tid ∧ tidQuarter tid ≤ 4 := by
  obtain ⟨q, yy, htid, hq, hm, hy, hq'⟩ := matchQuarterYear_of_wf h
  have hb : 1 ≤ digitVal q ∧ digitVal q ≤ 4 := by
    rcases hq with h' | h' | h' | h' <;> subst h' <;> exact ⟨by decide, by decide⟩
  rw [hq'] at hb
  exact ⟨by simp [sort_key_trimester, hm, hy, hq'], by simp [hm], hb.1, hb.2⟩

theorem sort_key_page_sheet_eq {fd : ParsedSheet} (h : wellFormedTid fd.trimester_id) :
    sort_key_page_sheet fd =
      (tidYear fd.trimester_id, tidQuarter fd.trimester_id, fd.page) ∧
    1 ≤ tidQuarter fd.trimester_id ∧ tidQuarter fd.trimester_id ≤ 4 := by
  obtain ⟨q, yy, htid, hq, hm, hy, hq'⟩ := matchQuarterYear_of_wf h
  have hb : 1 ≤ digitVal q ∧ digitVal q ≤ 4 := by
    rcases hq with h' | h' | h' | h' <;> subst h' <;> exact ⟨by decide, by decide⟩
  rw [hq'] at hb
  exact ⟨by simp [sort_key_page_sheet, hm, hy, hq'], hb.1, hb.2⟩

/-! ### Claim C10 — the sort-key fallbacks are unreachable -/

/-- C10: a trimester id produced by either sheet parser always re-matches
`([1-4])T(\d{2,})`, so `sort_key_page_sheet` never returns the fallback
`(9999, 9, page)` and `sort_key_trimester` never returns `(9999, 9)` on
parser outputs. -/
theorem c10_sort_key_fallbacks_unreachable (s t : List Char) (x y : ParsedSheet)
    (hx : parse_filename_for_page_sheet s = some x)
    (hy : parse_filename_for_trimester_sheet t = some y) :
    matchQuarterYear x.trimester_id ≠ none ∧
    sort_key_page_sheet x ≠ (9999, 9, x.page) ∧
    matchQuarterYear y.trimester_id ≠ none ∧
    sort_key_trimester y.trimester_id ≠ (9999, 9) := by
  have hwx := wellFormedTid_of_parse hx
  have hwy : wellFormedTid y.trimester_id :=
    wellFormedTid_of_parse (show parse_filename_for_page_sheet t = some y from hy)
  obtain ⟨hkx, hbx1, hbx2⟩ := sort_key_page_sheet_eq hwx
  obtain ⟨hky, hmy, hby1, hby2⟩ := sort_key_trimester_eq hwy
  obtain ⟨_, _, _, _, hmx, _, _⟩ := matchQuarterYear_of_wf hwx
  refine ⟨by simp [hmx], ?_, hmy, ?_⟩
  · intro hc
    rw [hkx] at hc
    simp only [Prod.mk.injEq] at hc
    omega
  · intro hc
    rw [hky] at hc
    simp only [Prod.mk.injEq] at hc
    omega

/-- C10 witness at a concrete parsed file. -/
theorem c10_sort_key_fallbacks_unreachable_witness :
    matchQuarterYear (ParsedSheet.mk ['1', 'T', '2', '2'] 46
        ("1T22_p46_all_tables.csv".toList)).trimester_id ≠ none ∧
    sort_key_page_sheet (ParsedSheet.mk ['1', 'T', '2', '2'] 46
        ("1T22_p46_all_tables.csv".toList)) ≠ (9999, 9, 46) ∧
    matchQuarterYear (ParsedSheet.mk ['1', 'T', '2', '2'] 46
        ("1T22_p46_all_tables.csv".toList)).trimester_id ≠ none ∧
    sort_key_trimester (ParsedSheet.mk ['1', 'T', '2', '2'] 46
        ("1T22_p46_all_tables.csv".toList)).trimester_id ≠ (9999, 9) :=
  c10_sort_key_fallbacks_unreachable
    ("1T22_p46_all_tables.csv".toList) ("1T22_p46_all_tables.csv".toList)
    (ParsedSheet.mk ['1', 'T', '2', '2'] 46 ("1T22_p46_all_tables.csv".toList))
    (ParsedSheet.mk ['1', 'T', '2', '2'] 46 ("1T22_p46_all_tables.csv".toList))
    (by decide) (by decide)

/-! ### Claim C2 — chronological processing order -/

theorem pairwise_mergeSort_decide {R : α → α → Prop} [DecidableRel R]
    (htrans : ∀ a b c, R a b → R b c → R a c)
    (htotal : ∀ a b, R a b ∨ R b a) (l : List α) :
    (l.mergeSort (fun a b => decide (R a b))).Pairwise R := by
  have h := @List.sorted_mergeSort _ (fun a b => decide (R a b))
    (fun a b c hab hbc =>
      decide_eq_true (htrans a b c (of_decide_eq_true hab) (of_decide_eq_true hbc)))
    (fun a b => by
      rcases htotal a b with h' | h'
      · exact Bool.or_eq_true_iff.2 (Or.inl (decide_eq_true h'))
      · exact Bool.or_eq_true_iff.2 (Or.inr (decide_eq_true h')))
    l
  exact h.imp (fun hab => of_decide_eq_true hab)

theorem wf_of_mem_pageSheetSorted {fps : List (List Char)} {x : ParsedSheet}
    (h : x ∈ pageSheetSorted fps) : wellFormedTid x.trimester_id := by
  obtain ⟨s, _, hparse⟩ := List.mem_filterMap.1 (List.mem_mergeSort.1 h)
  exact wellFormedTid_of_parse hparse

theorem pageSheetSorted_chrono (fps : List (List Char)) :
    (pageSheetSorted fps).Pairwise
      (fun a b =>
        lexLe3 (tidYear a.trimester_id, tidQuarter a.trimester_id, a.page)
               (tidYear b.trimester_id, tidQuarter b.trimester_id, b.page)) := by
  have hp := pairwise_mergeSort_decide
    (R := fun a b => lexLe3 (sort_key_page_sheet a) (sort_key_page_sheet b))
    (fun a b c => lexLe3_trans) (fun a b => lexLe3_total _ _)
    (fps.filterMap parse_filename_for_page_sheet)
  refine hp.imp_of_mem (fun ha hb hab => ?_)
  rw [(sort_key_page_sheet_eq (wf_of_mem_pageSheetSorted ha)).1,
      (sort_key_page_sheet_eq (wf_of_mem_pageSheetSorted hb)).1] at hab
  exact hab

theorem mem_foldl_keys {l : List ParsedSheet} :
    ∀ (acc : List (List Char)) (tid : List Char),
      tid ∈ l.foldl
        (fun acc d => if d.trimester_id ∈ acc then acc else acc ++ [d.trimester_id]) acc →
      tid ∈ acc ∨ ∃ x ∈ l, x.trimester_id = tid := by
  induction l with
  | nil => intro acc tid h; exact Or.inl h
  | cons d t ih =>
    intro acc tid h
    simp only [List.foldl_cons] at h
    rcases ih _ tid h with h' | ⟨x, hx, he⟩
    · split at h'
      · exact Or.inl h'
      · rcases List.mem_append.1 h' with h'' | h''
        · exact Or.inl h''
        · simp only [List.mem_singleton] at h''
          exact Or.inr ⟨d, by simp, h''.symm⟩
    · exact Or.inr ⟨x, by simp [hx], he⟩

theorem wf_of_mem_sortedTrimesterIds {fps : List (List Char)} {tid : List Char}
    (h : tid ∈ sortedTrimesterIds fps) : wellFormedTid tid := by
  have h1 := List.mem_mergeSort.1 h
  rcases mem_foldl_keys [] tid h1 with h2 | ⟨x, hx, he⟩
  · simp at h2
  · obtain ⟨s, _, hparse⟩ := List.mem_filterMap.1 hx
    rw [← he]
    exact wellFormedTid_of_parse
      (show parse_filename_for_page_sheet s = some x from hparse)

/-- C2: all three scripts process files chronologically.  `compile_csv_reports`
sorts by `(year, trimester, page)`; `create_excel_by_page` sorts by the
year/quarter parsed back out of the trimester id, then page;
`create_excel_by_trimester` emits its sheets in increasing `(year, quarter)`
order, and within every trimester group the pages ascend. -/
theorem c2_chronological_order (read : List Char → ReadOutcome)
    (fps : List (List Char)) :
    (compileSorted fps).Pairwise
      (fun a b => lexLe3 (compileKey a) (compileKey b)) ∧
    (pageSheetSorted fps).Pairwise
      (fun a b =>
        lexLe3 (tidYear a.trimester_id, tidQuarter a.trimester_id, a.page)
               (tidYear b.trimester_id, tidQuarter b.trimester_id, b.page)) ∧
    ((sortedTrimesterIds fps).filter
        (fun tid =>
          !(trimesterDfs read (fps.filterMap parse_filename_for_trimester_sheet)
              tid).isEmpty)).Pairwise
      (fun a b => lexLe2 (tidYear a, tidQuarter a) (tidYear b, tidQuarter b)) ∧
    ∀ tid, (trimesterFiles (fps.filterMap parse_filename_for_trimester_sheet)
        tid).Pairwise (fun a b => a.page ≤ b.page) := by
  refine ⟨?_, ?_, ?_, ?_⟩
  · exact pairwise_mergeSort_decide
      (R := fun a b => lexLe3 (compileKey a) (compileKey b))
      (fun a b c => lexLe3_trans)
      (fun a b => lexLe3_total _ _) _
  · exact pageSheetSorted_chrono fps
  · have hp := pairwise_mergeSort_decide
      (R := fun a b => lexLe2 (sort_key_trimester a) (sort_key_trimester b))
      (fun a b c => lexLe2_trans) (fun a b => lexLe2_total _ _)
      (firstOccurrenceKeys (fps.filterMap parse_filename_for_trimester_sheet))
    have hp' := hp.imp_of_mem
      (S := fun a b => lexLe2 (tidYear a, tidQuarter a) (tidYear b, tidQuarter b))
      (fun ha hb hab => by
        rw [(sort_key_trimester_eq (wf_of_mem_sortedTrimesterIds ha)).1,
            (sort_key_trimester_eq (wf_of_mem_sortedTrimesterIds hb)).1] at hab
        exact hab)
    exact List.Pairwise.sublist (List.filter_sublist _) hp'
  · intro tid
    exact (pairwise_mergeSort_decide
      (R := fun a b : ParsedSheet => a.page ≤ b.page)
      (fun a b c h1 h2 => le_trans h1 h2) (fun a b => Nat.le_total _ _) _)

/-! ### Claims C9 and C4 — max_rows and the padding loop -/

theorem foldl_maxRowsStep_mono (l : List (Parsed × ReadOutcome)) :
    ∀ acc : Nat, acc ≤ l.foldl maxRowsStep acc := by
  induction l with
  | nil => intro acc; simp
  | cons e t ih =>
    intro acc
    refine le_trans ?_ (ih (maxRowsStep acc e))
    unfold maxRowsStep
    split
    · exact le_refl _
    · exact Nat.le_max_left _ _

theorem length_le_maxRowsOf {entries : List (Parsed × ReadOutcome)}
    {e : Parsed × ReadOutcome} (he : e ∈ entries)
    (hne : (dfOf e.2).isEmptyDf = false) :
    (dfOf e.2).rows.length ≤ maxRowsOf entries := by
  unfold maxRowsOf
  suffices h : ∀ acc : Nat, (dfOf e.2).rows.length ≤ entries.foldl maxRowsStep acc by
    exact h 0
  induction entries with
  | nil => exact absurd he (by simp)
  | cons d t ih =>
    intro acc
    rcases List.mem_cons.1 he with h' | h'
    · subst h'
      refine le_trans ?_ (foldl_maxRowsStep_mono t (maxRowsStep acc e))
      unfold maxRowsStep
      rw [hne]
      simp
    · exact ih h' (maxRowsStep acc d)

/-- C9: the truncation branch of the padding loop is dead.  Every non-empty
dataframe among the entries has at most `max_rows` rows — `max_rows` is the
maximum over exactly these — so the branch guard `len(df) > max_rows` never
holds. -/
theorem c9_truncation_branch_dead (read : List Char → ReadOutcome)
    (fps : List (List Char)) (e : Parsed × ReadOutcome)
    (he : e ∈ compileEntries read fps)
    (hne : (dfOf e.2).isEmptyDf = false) :
    (dfOf e.2).rows.length ≤ maxRowsOf (compileEntries read fps) ∧
    ¬ maxRowsOf (compileEntries read fps) < (dfOf e.2).rows.length := by
  have h := length_le_maxRowsOf he hne
  exact ⟨h, by omega⟩

/-- C9 witness at a concrete one-file run. -/
theorem c9_truncation_branch_dead_witness :
    ((⟨⟨"1T22_p46_all_tables.csv".toList, 22, 1, 46, ['1', 'T', '2', '2']⟩,
        ReadOutcome.ok ⟨["a"], [[some "x"]]⟩ none⟩ : Parsed × ReadOutcome) ∈
      compileEntries (fun _ => ReadOutcome.ok ⟨["a"], [[some "x"]]⟩ none)
        ["1T22_p46_all_tables.csv".toList] ∧
    (dfOf (ReadOutcome.ok ⟨["a"], [[some "x"]]⟩ none)).isEmptyDf = false) ∧
    ((dfOf (ReadOutcome.ok ⟨["a"], [[some "x"]]⟩ none)).rows.length ≤
      maxRowsOf (compileEntries (fun _ => ReadOutcome.ok ⟨["a"], [[some "x"]]⟩ none)
        ["1T22_p46_all_tables.csv".toList]) ∧
    ¬ maxRowsOf (compileEntries (fun _ => ReadOutcome.ok ⟨["a"], [[some "x"]]⟩ none)
        ["1T22_p46_all_tables.csv".toList]) <
      (dfOf (ReadOutcome.ok ⟨["a"], [[some "x"]]⟩ none)).rows.length) :=
  ⟨⟨by
      have h1 : (["1T22_p46_all_tables.csv".toList] : List (List Char)).filterMap
          parse_filename =
          [⟨"1T22_p46_all_tables.csv".toList, 22, 1, 46, ['1', 'T', '2', '2']⟩] := by
        decide
      rw [compileEntries, compileSorted, h1, List.mergeSort_of_sorted (by simp)]
      decide,
    by decide⟩,
   c9_truncation_branch_dead
     (fun _ => ReadOutcome.ok ⟨["a"], [[some "x"]]⟩ none)
     ["1T22_p46_all_tables.csv".toList]
     ⟨⟨"1T22_p46_all_tables.csv".toList, 22, 1, 46, ['1', 'T', '2', '2']⟩,
       ReadOutcome.ok ⟨["a"], [[some "x"]]⟩ none⟩
     (by
      have h1 : (["1T22_p46_all_tables.csv".toList] : List (List Char)).filterMap
          parse_filename =
          [⟨"1T22_p46_all_tables.csv".toList, 22, 1, 46, ['1', 'T', '2', '2']⟩] := by
        decide
      rw [compileEntries, compileSorted, h1, List.mergeSort_of_sorted (by simp)]
      decide)
     (by decide)⟩

/-- C4: with at least one non-empty input frame, every block placed into the
side-by-side concatenation has exactly `max_rows` rows; an empty or
unreadable file contributes a placeholder of `''` strings with
`num_original_cols` columns, and a shorter non-empty frame is padded with
rows of `''` cells (NaN padding followed by `fillna('')`). -/
theorem c4_padding_aligns_rows (read : List Char → ReadOutcome)
    (fps : List (List Char))
    (hne : ∃ e ∈ compileEntries read fps, (dfOf e.2).isEmptyDf = false) :
    0 < maxRowsOf (compileEntries read fps) ∧
    ∀ e ∈ compileEntries read fps,
      (padEntry (maxRowsOf (compileEntries read fps)) e).rows.length =
        maxRowsOf (compileEntries read fps) ∧
      ((dfOf e.2).isEmptyDf = true →
        padEntry (maxRowsOf (compileEntries read fps)) e =
          ⟨(List.range (numOriginalCols e.2)).map
              (fun j => filePfx e.1 ++ "_col" ++ String.mk (natToDigits j)),
           List.replicate (maxRowsOf (compileEntries read fps))
             (List.replicate (numOriginalCols e.2) (some ""))⟩) ∧
      ((dfOf e.2).isEmptyDf = false →
        (padEntry (maxRowsOf (compileEntries read fps)) e).rows =
          (dfOf e.2).rows.map (fun r => r.map fillCell) ++
            List.replicate
              (maxRowsOf (compileEntries read fps) - (dfOf e.2).rows.length)
              (List.replicate (dfOf e.2).header.length (some ""))) := by
  obtain ⟨e0, he0, hne0⟩ := hne
  have hlen0 := length_le_maxRowsOf he0 hne0
  have hpos : 0 < (dfOf e0.2).rows.length := by
    unfold DataFrame.isEmptyDf at hne0
    simp only [Bool.or_eq_false_iff, List.isEmpty_eq_false] at hne0
    exact List.length_pos.2 hne0.1
  refine ⟨by omega, ?_⟩
  intro e he
  by_cases hd : (dfOf e.2).isEmptyDf
  · refine ⟨?_, fun _ => ?_, fun hc => by rw [hd] at hc; exact absurd hc (by simp)⟩
    · simp [padEntry, hd, DataFrame.fillna]
    · simp only [padEntry, hd, if_true, DataFrame.fillna, List.map_replicate]
      congr 1
  · have hd' : (dfOf e.2).isEmptyDf = false := by simp [hd]
    have hle := length_le_maxRowsOf he hd'
    have hrows : (padEntry (maxRowsOf (compileEntries read fps)) e).rows =
        (dfOf e.2).rows.map (fun r => r.map fillCell) ++
          List.replicate
            (maxRowsOf (compileEntries read fps) - (dfOf e.2).rows.length)
            (List.replicate (dfOf e.2).header.length (some "")) := by
      simp only [padEntry, hd', Bool.false_eq_true, if_false, DataFrame.fillna]
      by_cases hlt : (dfOf e.2).rows.length < maxRowsOf (compileEntries read fps)
      · simp only [hlt, if_true, List.map_append, List.map_replicate]
        congr 2
      · have heq : (dfOf e.2).rows.length = maxRowsOf (compileEntries read fps) := by omega
        simp only [hlt, if_false]
        rw [if_neg (by omega)]
        rw [heq]
        simp
    refine ⟨?_, fun hc => by rw [hd'] at hc; exact absurd hc (by simp), fun _ => hrows⟩
    rw [hrows]
    simp only [List.length_append, List.length_map, List.length_replicate]
    omega

/-- C4 witness: two files, one two-row frame and one empty frame. -/
theorem c4_padding_aligns_rows_witness :
    (∃ e ∈ compileEntries
        (fun p => if p = "1T22_p46_all_tables.csv".toList then
            ReadOutcome.ok ⟨["a"], [[some "x"], [some "y"]]⟩ none
          else ReadOutcome.emptyData)
        ["1T22_p46_all_tables.csv".toList, "1T22_p47_all_tables.csv".toList],
      (dfOf e.2).isEmptyDf = false) ∧
    (0 < maxRowsOf (compileEntries
        (fun p => if p = "1T22_p46_all_tables.csv".toList then
            ReadOutcome.ok ⟨["a"], [[some "x"], [some "y"]]⟩ none
          else ReadOutcome.emptyData)
        ["1T22_p46_all_tables.csv".toList, "1T22_p47_all_tables.csv".toList]) ∧
    ∀ e ∈ compileEntries
        (fun p => if p = "1T22_p46_all_tables.csv".toList then
            ReadOutcome.ok ⟨["a"], [[some "x"], [some "y"]]⟩ none
          else ReadOutcome.emptyData)
        ["1T22_p46_all_tables.csv".toList, "1T22_p47_all_tables.csv".toList],
      (padEntry (maxRowsOf (compileEntries
          (fun p => if p = "1T22_p46_all_tables.csv".toList then
              ReadOutcome.ok ⟨["a"], [[some "x"], [some "y"]]⟩ none
            else ReadOutcome.emptyData)
          ["1T22_p46_all_tables.csv".toList, "1T22_p47_all_tables.csv".toList])) e).rows.length =
        maxRowsOf (compileEntries
          (fun p => if p = "1T22_p46_all_tables.csv".toList then
              ReadOutcome.ok ⟨["a"], [[some "x"], [some "y"]]⟩ none
            else ReadOutcome.emptyData)
          ["1T22_p46_all_tables.csv".toList, "1T22_p47_all_tables.csv".toList]) ∧
      ((dfOf e.2).isEmptyDf = true →
        padEntry (maxRowsOf (compileEntries
            (fun p => if p = "1T22_p46_all_tables.csv".toList then
                ReadOutcome.ok ⟨["a"], [[some "x"], [some "y"]]⟩ none
              else ReadOutcome.emptyData)
            ["1T22_p46_all_tables.csv".toList, "1T22_p47_all_tables.csv".toList])) e =
          ⟨(List.range (numOriginalCols e.2)).map
              (fun j => filePfx e.1 ++ "_col" ++ String.mk (natToDigits j)),
           List.replicate (maxRowsOf (compileEntries
               (fun p => if p = "1T22_p46_all_tables.csv".toList then
                   ReadOutcome.ok ⟨["a"], [[some "x"], [some "y"]]⟩ none
                 else ReadOutcome.emptyData)
               ["1T22_p46_all_tables.csv".toList, "1T22_p47_all_tables.csv".toList]))
             (List.replicate (numOriginalCols e.2) (some ""))⟩) ∧
      ((dfOf e.2).isEmptyDf = false →
        (padEntry (maxRowsOf (compileEntries
            (fun p => if p = "1T22_p46_all_tables.csv".toList then
                ReadOutcome.ok ⟨["a"], [[some "x"], [some "y"]]⟩ none
              else ReadOutcome.emptyData)
            ["1T22_p46_all_tables.csv".toList, "1T22_p47_all_tables.csv".toList])) e).rows =
          (dfOf e.2).rows.map (fun r => r.map fillCell) ++
            List.replicate
              (maxRowsOf (compileEntries
                (fun p => if p = "1T22_p46_all_tables.csv".toList then
                    ReadOutcome.ok ⟨["a"], [[some "x"], [some "y"]]⟩ none
                  else ReadOutcome.emptyData)
                ["1T22_p46_all_tables.csv".toList, "1T22_p47_all_tables.csv".toList]) -
                (dfOf e.2).rows.length)
              (List.replicate (dfOf e.2).header.length (some "")))) :=
  ⟨by
    have h1 : (["1T22_p46_all_tables.csv".toList,
        "1T22_p47_all_tables.csv".toList] : List (List Char)).filterMap parse_filename =
        [⟨"1T22_p46_all_tables.csv".toList, 22, 1, 46, ['1', 'T', '2', '2']⟩,
         ⟨"1T22_p47_all_tables.csv".toList, 22, 1, 47, ['1', 'T', '2', '2']⟩] := by
      decide
    rw [compileEntries, compileSorted, h1, List.mergeSort_of_sorted (by decide)]
    decide,
   c4_padding_aligns_rows
     (fun p => if p = "1T22_p46_all_tables.csv".toList then
         ReadOutcome.ok ⟨["a"], [[some "x"], [some "y"]]⟩ none
       else ReadOutcome.emptyData)
     ["1T22_p46_all_tables.csv".toList, "1T22_p47_all_tables.csv".toList]
     (by
      have h1 : (["1T22_p46_all_tables.csv".toList,
          "1T22_p47_all_tables.csv".toList] : List (List Char)).filterMap parse_filename =
          [⟨"1T22_p46_all_tables.csv".toList, 22, 1, 46, ['1', 'T', '2', '2']⟩,
           ⟨"1T22_p47_all_tables.csv".toList, 22, 1, 47, ['1', 'T', '2', '2']⟩] := by
        decide
      rw [compileEntries, compileSorted, h1, List.mergeSort_of_sorted (by decide)]
      decide)⟩

/-! ### Claim C6 — logging-and-skip error handling -/

theorem parse_filename_none_iff {s : List Char} :
    parse_filename s = none ↔ parse_filename_for_page_sheet s = none := by
  constructor
  · intro h
    cases hp : parse_filename_for_page_sheet s with
    | none => rfl
    | some r =>
      obtain ⟨q, yy, pp, rest, hd, _⟩ := parse_page_sheet_eq_some_iff.1 hp
      have h' : parse_filename s =
          some ⟨s, digitsToNat yy, digitVal q, digitsToNat pp, q :: 'T' :: yy⟩ :=
        parse_filename_eq_some_iff.2 ⟨q, yy, pp, rest, hd, rfl⟩
      rw [h'] at h
      exact absurd h (by simp)
  · intro h
    cases hp : parse_filename s with
    | none => rfl
    | some r =>
      obtain ⟨q, yy, pp, rest, hd, _⟩ := parse_filename_eq_some_iff.1 hp
      have h' : parse_filename_for_page_sheet s =
          some ⟨q :: 'T' :: yy, digitsToNat pp, s⟩ :=
        parse_page_sheet_eq_some_iff.2 ⟨q, yy, pp, rest, hd, rfl⟩
      rw [h'] at h
      exact absurd h (by simp)

/-- C6: per-file failures are logged and skipped, never fatal.  An unparsable
filename drops out of all three aggregations without affecting the rest; as
long as anything parsed, `compile_csv_reports` still writes an output (empty
or compiled) with one block per parsed file, `create_excel_by_page` still
writes a workbook with exactly one sheet per parsed file whatever the read
outcomes, `create_excel_by_trimester` still writes a workbook, and inside a
trimester every successfully read page still contributes even when sibling
pages fail. -/
theorem c6_failures_logged_and_skipped (read : List Char → ReadOutcome)
    (fps : List (List Char)) (s : List Char)
    (hbad : parse_filename s = none) :
    compileSorted (s :: fps) = compileSorted fps ∧
    pageSheetSorted (s :: fps) = pageSheetSorted fps ∧
    sortedTrimesterIds (s :: fps) = sortedTrimesterIds fps ∧
    (fps ≠ [] →
      compile_csv_reports read (s :: fps) = compile_csv_reports read fps) ∧
    create_excel_by_page read (s :: fps) = create_excel_by_page read fps ∧
    create_excel_by_trimester read (s :: fps) = create_excel_by_trimester read fps ∧
    ((fps.filterMap parse_filename).isEmpty = false →
      compile_csv_reports read fps = .emptyOutput ∨
        ∃ df, compile_csv_reports read fps = .output df) ∧
    (compileEntries read fps).length = (fps.filterMap parse_filename).length ∧
    ((fps.filterMap parse_filename_for_page_sheet).isEmpty = false →
      ∃ sheets, create_excel_by_page read fps = some sheets ∧
        sheets.length = (fps.filterMap parse_filename_for_page_sheet).length) ∧
    ((fps.filterMap parse_filename_for_trimester_sheet).isEmpty = false →
      ∃ sheets, create_excel_by_trimester read fps = some sheets) ∧
    (∀ tid fd df,
      fd ∈ trimesterFiles (fps.filterMap parse_filename_for_trimester_sheet) tid →
      trimesterRead read fd = some df →
      df ∈ trimesterDfs read (fps.filterMap parse_filename_for_trimester_sheet) tid) := by
  have hbadp : parse_filename_for_page_sheet s = none := parse_filename_none_iff.1 hbad
  have hbadt : parse_filename_for_trimester_sheet s = none := hbadp
  have hfm1 : (s :: fps).filterMap parse_filename = fps.filterMap parse_filename := by
    simp [List.filterMap_cons, hbad]
  have hfm2 : (s :: fps).filterMap parse_filename_for_page_sheet =
      fps.filterMap parse_filename_for_page_sheet := by
    simp [List.filterMap_cons, hbadp]
  have hfm3 : (s :: fps).filterMap parse_filename_for_trimester_sheet =
      fps.filterMap parse_filename_for_trimester_sheet := by
    simp [List.filterMap_cons, hbadt]
  have hcs : compileSorted (s :: fps) = compileSorted fps := by
    rw [compileSorted, compileSorted, hfm1]
  have hps : pageSheetSorted (s :: fps) = pageSheetSorted fps := by
    rw [pageSheetSorted, pageSheetSorted, hfm2]
  have hts : sortedTrimesterIds (s :: fps) = sortedTrimesterIds fps := by
    rw [sortedTrimesterIds, sortedTrimesterIds, hfm3]
  refine ⟨hcs, hps, hts, ?_, ?_, ?_, ?_, ?_, ?_, ?_, ?_⟩
  · intro hne
    rw [compile_csv_reports, compile_csv_reports]
    have h1 : (s :: fps).isEmpty = false := rfl
    have h2 : fps.isEmpty = false := by simpa using hne
    rw [h1, h2, hfm1, compileEntries, compileEntries, hcs]
  · rw [create_excel_by_page, create_excel_by_page, hfm2]
    have h1 : (s :: fps).isEmpty = false := rfl
    rw [h1]
    cases hfe : fps.isEmpty with
    | true =>
      have : fps = [] := by simpa using hfe
      subst this
      simp [hbadp]
    | false =>
      rw [pageSheetSorted, pageSheetSorted, hfm2]
  · rw [create_excel_by_trimester, create_excel_by_trimester, hfm3]
    have h1 : (s :: fps).isEmpty = false := rfl
    rw [h1]
    cases hfe : fps.isEmpty with
    | true =>
      have : fps = [] := by simpa using hfe
      subst this
      simp [hbadt]
    | false =>
      rw [hts]
  · intro hne
    rw [compile_csv_reports]
    have h2 : fps.isEmpty = false := by
      cases hf : fps.isEmpty with
      | false => rfl
      | true =>
        have : fps = [] := by simpa using hf
        subst this
        simp at hne
    rw [h2]
    simp only [hne, Bool.false_eq_true, if_false]
    by_cases hmr : maxRowsOf (compileEntries read fps) = 0
    · rw [if_pos hmr]
      exact Or.inl rfl
    · rw [if_neg hmr]
      exact Or.inr ⟨_, rfl⟩
  · rw [compileEntries, List.length_map, compileSorted,
      (List.mergeSort_perm _ _).length_eq]
  · intro hne
    rw [create_excel_by_page]
    have h2 : fps.isEmpty = false := by
      cases hf : fps.isEmpty with
      | false => rfl
      | true =>
        have : fps = [] := by simpa using hf
        subst this
        simp at hne
    rw [h2]
    simp only [hne, Bool.false_eq_true, if_false]
    refine ⟨_, rfl, ?_⟩
    rw [List.length_map, pageSheetSorted, (List.mergeSort_perm _ _).length_eq]
  · intro hne
    rw [create_excel_by_trimester]
    have h2 : fps.isEmpty = false := by
      cases hf : fps.isEmpty with
      | false => rfl
      | true =>
        have : fps = [] := by simpa using hf
        subst this
        simp at hne
    rw [h2]
    simp only [hne, Bool.false_eq_true, if_false]
    exact ⟨_, rfl⟩
  · intro tid fd df hmem hread
    exact List.mem_filterMap.2 ⟨fd, hmem, hread⟩

/-- C6 witness: a garbage filename plus one real file whose read errors —
everything is still written. -/
theorem c6_failures_logged_and_skipped_witness :
    (compileSorted ("garbage.csv".toList :: ["1T22_p46_all_tables.csv".toList]) =
      compileSorted ["1T22_p46_all_tables.csv".toList] ∧
    pageSheetSorted ("garbage.csv".toList :: ["1T22_p46_all_tables.csv".toList]) =
      pageSheetSorted ["1T22_p46_all_tables.csv".toList] ∧
    sortedTrimesterIds ("garbage.csv".toList :: ["1T22_p46_all_tables.csv".toList]) =
      sortedTrimesterIds ["1T22_p46_all_tables.csv".toList] ∧
    (["1T22_p46_all_tables.csv".toList] ≠ ([] : List (List Char)) →
      compile_csv_reports (fun _ => ReadOutcome.err "boom")
          ("garbage.csv".toList :: ["1T22_p46_all_tables.csv".toList]) =
        compile_csv_reports (fun _ => ReadOutcome.err "boom")
          ["1T22_p46_all_tables.csv".toList]) ∧
    create_excel_by_page (fun _ => ReadOutcome.err "boom")
        ("garbage.csv".toList :: ["1T22_p46_all_tables.csv".toList]) =
      create_excel_by_page (fun _ => ReadOutcome.err "boom")
        ["1T22_p46_all_tables.csv".toList] ∧
    create_excel_by_trimester (fun _ => ReadOutcome.err "boom")
        ("garbage.csv".toList :: ["1T22_p46_all_tables.csv".toList]) =
      create_excel_by_trimester (fun _ => ReadOutcome.err "boom")
        ["1T22_p46_all_tables.csv".toList] ∧
    ((["1T22_p46_all_tables.csv".toList].filterMap parse_filename).isEmpty = false →
      compile_csv_reports (fun _ => ReadOutcome.err "boom")
          ["1T22_p46_all_tables.csv".toList] = .emptyOutput ∨
        ∃ df, compile_csv_reports (fun _ => ReadOutcome.err "boom")
          ["1T22_p46_all_tables.csv".toList] = .output df) ∧
    (compileEntries (fun _ => ReadOutcome.err "boom")
        ["1T22_p46_all_tables.csv".toList]).length =
      (["1T22_p46_all_tables.csv".toList].filterMap parse_filename).length ∧
    ((["1T22_p46_all_tables.csv".toList].filterMap
        parse_filename_for_page_sheet).isEmpty = false →
      ∃ sheets, create_excel_by_page (fun _ => ReadOutcome.err "boom")
          ["1T22_p46_all_tables.csv".toList] = some sheets ∧
        sheets.length = (["1T22_p46_all_tables.csv".toList].filterMap
          parse_filename_for_page_sheet).length) ∧
    ((["1T22_p46_all_tables.csv".toList].filterMap
        parse_filename_for_trimester_sheet).isEmpty = false →
      ∃ sheets, create_excel_by_trimester (fun _ => ReadOutcome.err "boom")
          ["1T22_p46_all_tables.csv".toList] = some sheets) ∧
    (∀ tid fd df,
      fd ∈ trimesterFiles (["1T22_p46_all_tables.csv".toList].filterMap
        parse_filename_for_trimester_sheet) tid →
      trimesterRead (fun _ => ReadOutcome.err "boom") fd = some df →
      df ∈ trimesterDfs (fun _ => ReadOutcome.err "boom")
        (["1T22_p46_all_tables.csv".toList].filterMap
          parse_filename_for_trimester_sheet) tid)) :=
  c6_failures_logged_and_skipped (fun _ => ReadOutcome.err "boom")
    ["1T22_p46_all_tables.csv".toList] ("garbage.csv".toList) (by decide)

/-! ### Claim C5 — one sheet per trimester with data -/

theorem filterMap_ite {P : α → Bool} {f : α → β} :
    ∀ l : List α,
      (l.filterMap (fun a => if P a then none else some (f a))) =
        (l.filter (fun a => !P a)).map f := by
  intro l
  induction l with
  | nil => rfl
  | cons x t ih =>
    cases hP : P x <;> simp [List.filterMap_cons, List.filter_cons, hP, ih]

theorem nodup_foldl_keys :
    ∀ (l : List ParsedSheet) (acc : List (List Char)), acc.Nodup →
      (l.foldl
        (fun acc d => if d.trimester_id ∈ acc then acc else acc ++ [d.trimester_id])
        acc).Nodup := by
  intro l
  induction l with
  | nil => intro acc h; exact h
  | cons d t ih =>
    intro acc h
    simp only [List.foldl_cons]
    refine ih _ ?_
    split
    · exact h
    · next hmem =>
      rw [List.nodup_append]
      exact ⟨h, List.nodup_singleton _, by
        intro a ha hb
        simp only [List.mem_singleton] at hb
        subst hb
        exact hmem ha⟩

theorem nodup_sortedTrimesterIds (fps : List (List Char)) :
    (sortedTrimesterIds fps).Nodup :=
  (List.mergeSort_perm _ _).nodup_iff.2
    (nodup_foldl_keys _ [] List.nodup_nil)

/-- C5: the workbook has exactly one sheet per trimester id with at least one
non-empty, readable page CSV (sheet list = map over exactly those ids, which
are pairwise distinct); each sheet is the vertical, index-reset concatenation
of the pages' frames in increasing page order; a trimester all of whose CSVs
are empty or unreadable generates no sheet. -/
theorem c5_one_sheet_per_trimester_with_data (read : List Char → ReadOutcome)
    (fps : List (List Char)) (sheets : List (List Char × DataFrame))
    (h : create_excel_by_trimester read fps = some sheets) :
    sheets = ((sortedTrimesterIds fps).filter
        (fun tid => !(trimesterDfs read
          (fps.filterMap parse_filename_for_trimester_sheet) tid).isEmpty)).map
      (fun tid => (tid.take 31,
        concatAligned (trimesterDfs read
          (fps.filterMap parse_filename_for_trimester_sheet) tid))) ∧
    (sortedTrimesterIds fps).Nodup ∧
    (∀ tid, (trimesterDfs read
        (fps.filterMap parse_filename_for_trimester_sheet) tid).isEmpty = true →
      tid ∉ (sortedTrimesterIds fps).filter
        (fun tid => !(trimesterDfs read
          (fps.filterMap parse_filename_for_trimester_sheet) tid).isEmpty)) ∧
    (∀ tid, (trimesterFiles (fps.filterMap parse_filename_for_trimester_sheet)
        tid).Pairwise (fun a b => a.page ≤ b.page)) := by
  refine ⟨?_, nodup_sortedTrimesterIds fps, ?_, ?_⟩
  · rw [create_excel_by_trimester] at h
    split at h
    · exact absurd h (by simp)
    · split at h
      · exact absurd h (by simp)
      · simp only [Option.some.injEq] at h
        rw [← h,
          filterMap_ite
            (P := fun tid => (trimesterDfs read
              (fps.filterMap parse_filename_for_trimester_sheet) tid).isEmpty)
            (f := fun tid => (tid.take 31,
              concatAligned (trimesterDfs read
                (fps.filterMap parse_filename_for_trimester_sheet) tid)))]
  · intro tid htid hmem
    rw [List.mem_filter] at hmem
    rw [htid] at hmem
    exact absurd hmem.2 (by simp)
  · intro tid
    exact pairwise_mergeSort_decide
      (R := fun a b : ParsedSheet => a.page ≤ b.page)
      (fun a b c h1 h2 => le_trans h1 h2) (fun a b => Nat.le_total _ _) _

/-- C5 witness: two pages of trimester `1T22`, one readable and non-empty,
one erroring — the workbook has exactly the one `1T22` sheet. -/
theorem c5_one_sheet_per_trimester_with_data_witness :
    create_excel_by_trimester
        (fun p => if p = "1T22_p46_all_tables.csv".toList then
            ReadOutcome.ok ⟨["a"], [[some "x"]]⟩ none
          else ReadOutcome.err "boom")
        ["1T22_p46_all_tables.csv".toList, "1T22_p47_all_tables.csv".toList] =
      some [(['1', 'T', '2', '2'], DataFrame.mk ["a"] [[some "x"]])] ∧
    ([(['1', 'T', '2', '2'], DataFrame.mk ["a"] [[some "x"]])] :
        List (List Char × DataFrame)) =
      ((sortedTrimesterIds
          ["1T22_p46_all_tables.csv".toList, "1T22_p47_all_tables.csv".toList]).filter
        (fun tid => !(trimesterDfs
          (fun p => if p = "1T22_p46_all_tables.csv".toList then
              ReadOutcome.ok ⟨["a"], [[some "x"]]⟩ none
            else ReadOutcome.err "boom")
          (["1T22_p46_all_tables.csv".toList,
            "1T22_p47_all_tables.csv".toList].filterMap
              parse_filename_for_trimester_sheet) tid).isEmpty)).map
      (fun tid => (tid.take 31,
        concatAligned (trimesterDfs
          (fun p => if p = "1T22_p46_all_tables.csv".toList then
              ReadOutcome.ok ⟨["a"], [[some "x"]]⟩ none
            else ReadOutcome.err "boom")
          (["1T22_p46_all_tables.csv".toList,
            "1T22_p47_all_tables.csv".toList].filterMap
              parse_filename_for_trimester_sheet) tid))) := by
  have e1 : (["1T22_p46_all_tables.csv".toList,
      "1T22_p47_all_tables.csv".toList] : List (List Char)).filterMap
        parse_filename_for_trimester_sheet =
      [⟨['1', 'T', '2', '2'], 46, "1T22_p46_all_tables.csv".toList⟩,
       ⟨['1', 'T', '2', '2'], 47, "1T22_p47_all_tables.csv".toList⟩] := by
    decide
  have e2 : firstOccurrenceKeys
      [⟨['1', 'T', '2', '2'], 46, "1T22_p46_all_tables.csv".toList⟩,
       ⟨['1', 'T', '2', '2'], 47, "1T22_p47_all_tables.csv".toList⟩] =
      [['1', 'T', '2', '2']] := by decide
  have e3 : sortedTrimesterIds
      ["1T22_p46_all_tables.csv".toList, "1T22_p47_all_tables.csv".toList] =
      [['1', 'T', '2', '2']] := by
    rw [sortedTrimesterIds, e1, e2, List.mergeSort_of_sorted (by simp)]
  have e4f : ([⟨['1', 'T', '2', '2'], 46, "1T22_p46_all_tables.csv".toList⟩,
      (⟨['1', 'T', '2', '2'], 47, "1T22_p47_all_tables.csv".toList⟩ : ParsedSheet)]).filter
        (fun x => decide (x.trimester_id = ['1', 'T', '2', '2'])) =
      [⟨['1', 'T', '2', '2'], 46, "1T22_p46_all_tables.csv".toList⟩,
       ⟨['1', 'T', '2', '2'], 47, "1T22_p47_all_tables.csv".toList⟩] := by decide
  have e4 : trimesterFiles
      [⟨['1', 'T', '2', '2'], 46, "1T22_p46_all_tables.csv".toList⟩,
       ⟨['1', 'T', '2', '2'], 47, "1T22_p47_all_tables.csv".toList⟩]
      ['1', 'T', '2', '2'] =
      [⟨['1', 'T', '2', '2'], 46, "1T22_p46_all_tables.csv".toList⟩,
       ⟨['1', 'T', '2', '2'], 47, "1T22_p47_all_tables.csv".toList⟩] := by
    rw [trimesterFiles, e4f, List.mergeSort_of_sorted (by decide)]
  have e5 : trimesterDfs
      (fun p => if p = "1T22_p46_all_tables.csv".toList then
          ReadOutcome.ok ⟨["a"], [[some "x"]]⟩ none
        else ReadOutcome.err "boom")
      [⟨['1', 'T', '2', '2'], 46, "1T22_p46_all_tables.csv".toList⟩,
       ⟨['1', 'T', '2', '2'], 47, "1T22_p47_all_tables.csv".toList⟩]
      ['1', 'T', '2', '2'] = [DataFrame.mk ["a"] [[some "x"]]] := by
    rw [trimesterDfs, e4]
    decide
  have h : create_excel_by_trimester
      (fun p => if p = "1T22_p46_all_tables.csv".toList then
          ReadOutcome.ok ⟨["a"], [[some "x"]]⟩ none
        else ReadOutcome.err "boom")
      ["1T22_p46_all_tables.csv".toList, "1T22_p47_all_tables.csv".toList] =
      some [(['1', 'T', '2', '2'], DataFrame.mk ["a"] [[some "x"]])] := by
    rw [create_excel_by_trimester, e1, e3]
    simp only [List.filterMap_cons, List.filterMap_nil, e5]
    decide
  exact ⟨h, (c5_one_sheet_per_trimester_with_data _ _ _ h).1⟩

/-! ### Claim C8 — one sheet per parsed file in create_excel_by_page -/

/-- C8 counterexample: a parsed file whose read raises a generic exception
gets its one sheet under the name `ERR_1T22_p46`, not `1T22_p46` as the
claim's naming rule states. -/
theorem c8_error_sheet_renamed_counterexample :
    create_excel_by_page (fun _ => ReadOutcome.err "boom")
        ["1T22_p46_all_tables.csv".toList] =
      some [("ERR_1T22_p46".toList, errorDf "boom")] ∧
    ("ERR_1T22_p46".toList : List Char) ≠
      ((['1', 'T', '2', '2'] ++ '_' :: 'p' :: natToDigits 46).take 31) := by
  have e1 : (["1T22_p46_all_tables.csv".toList] : List (List Char)).filterMap
      parse_filename_for_page_sheet =
      [⟨['1', 'T', '2', '2'], 46, "1T22_p46_all_tables.csv".toList⟩] := by decide
  have e2 : pageSheetSorted ["1T22_p46_all_tables.csv".toList] =
      [⟨['1', 'T', '2', '2'], 46, "1T22_p46_all_tables.csv".toList⟩] := by
    rw [pageSheetSorted, e1, List.mergeSort_of_sorted (by simp)]
  constructor
  · rw [create_excel_by_page, e1, e2]
    decide
  · decide

/-- C8 (amended): `create_excel_by_page` writes exactly one sheet per
successfully parsed CSV file, in chronological `(year, quarter, page)` order.
A file whose read succeeds gets the sheet `trimester_id_p{page}` truncated to
31 characters — holding its data (without the row index) when non-empty, and
an empty sheet when empty (also on `EmptyDataError`); a file whose read
raises any other error instead gets one sheet named `ERR_` + that name,
truncated to 31 characters, holding a one-row error frame. -/
theorem c8_page_sheets_characterized (read : List Char → ReadOutcome)
    (fps : List (List Char)) (sheets : List (List Char × DataFrame))
    (h : create_excel_by_page read fps = some sheets) :
    sheets = (pageSheetSorted fps).map (pageSheetFor read) ∧
    sheets.length = (fps.filterMap parse_filename_for_page_sheet).length ∧
    (pageSheetSorted fps).Pairwise
      (fun a b =>
        lexLe3 (tidYear a.trimester_id, tidQuarter a.trimester_id, a.page)
               (tidYear b.trimester_id, tidQuarter b.trimester_id, b.page)) ∧
    ∀ fd : ParsedSheet,
      (∀ df hc, read fd.filepath = ReadOutcome.ok df hc → df.isEmptyDf = false →
        pageSheetFor read fd =
          ((fd.trimester_id ++ '_' :: 'p' :: natToDigits fd.page).take 31, df)) ∧
      (∀ df hc, read fd.filepath = ReadOutcome.ok df hc → df.isEmptyDf = true →
        pageSheetFor read fd =
          ((fd.trimester_id ++ '_' :: 'p' :: natToDigits fd.page).take 31,
           ⟨[], []⟩)) ∧
      (read fd.filepath = ReadOutcome.emptyData →
        pageSheetFor read fd =
          ((fd.trimester_id ++ '_' :: 'p' :: natToDigits fd.page).take 31,
           ⟨[], []⟩)) ∧
      (∀ msg, read fd.filepath = ReadOutcome.err msg →
        pageSheetFor read fd =
          (('E' :: 'R' :: 'R' :: '_' ::
              (fd.trimester_id ++ '_' :: 'p' :: natToDigits fd.page).take 31).take 31,
           errorDf msg)) := by
  have hs : sheets = (pageSheetSorted fps).map (pageSheetFor read) := by
    rw [create_excel_by_page] at h
    split at h
    · exact absurd h (by simp)
    · split at h
      · exact absurd h (by simp)
      · simp only [Option.some.injEq] at h
        exact h.symm
  refine ⟨hs, ?_, pageSheetSorted_chrono fps, ?_⟩
  · rw [hs, List.length_map, pageSheetSorted, (List.mergeSort_perm _ _).length_eq]
  · intro fd
    refine ⟨?_, ?_, ?_, ?_⟩
    · intro df hc hread hemp
      simp [pageSheetFor, hread, hemp]
    · intro df hc hread hemp
      simp [pageSheetFor, hread, hemp]
    · intro hread
      simp [pageSheetFor, hread]
    · intro msg hread
      simp [pageSheetFor, hread]

/-- C8 witness: one non-empty file and one empty file, in order. -/
theorem c8_page_sheets_characterized_witness :
    create_excel_by_page
        (fun p => if p = "1T22_p46_all_tables.csv".toList then
            ReadOutcome.ok ⟨["a"], [[some "x"]]⟩ none
          else ReadOutcome.emptyData)
        ["1T22_p46_all_tables.csv".toList, "1T22_p47_all_tables.csv".toList] =
      some [("1T22_p46".toList, DataFrame.mk ["a"] [[some "x"]]),
            ("1T22_p47".toList, DataFrame.mk [] [])] ∧
    (([("1T22_p46".toList, DataFrame.mk ["a"] [[some "x"]]),
       ("1T22_p47".toList, DataFrame.mk [] [])] : List (List Char × DataFrame)) =
      (pageSheetSorted
          ["1T22_p46_all_tables.csv".toList, "1T22_p47_all_tables.csv".toList]).map
        (pageSheetFor (fun p => if p = "1T22_p46_all_tables.csv".toList then
            ReadOutcome.ok ⟨["a"], [[some "x"]]⟩ none
          else ReadOutcome.emptyData)) ∧
    ([("1T22_p46".toList, DataFrame.mk ["a"] [[some "x"]]),
      ("1T22_p47".toList, DataFrame.mk [] [])] : List (List Char × DataFrame)).length =
      (["1T22_p46_all_tables.csv".toList,
        "1T22_p47_all_tables.csv".toList].filterMap
          parse_filename_for_page_sheet).length ∧
    (pageSheetSorted
        ["1T22_p46_all_tables.csv".toList, "1T22_p47_all_tables.csv".toList]).Pairwise
      (fun a b =>
        lexLe3 (tidYear a.trimester_id, tidQuarter a.trimester_id, a.page)
               (tidYear b.trimester_id, tidQuarter b.trimester_id, b.page)) ∧
    ∀ fd : ParsedSheet,
      (∀ df hc, (fun p => if p = "1T22_p46_all_tables.csv".toList then
            ReadOutcome.ok ⟨["a"], [[some "x"]]⟩ none
          else ReadOutcome.emptyData) fd.filepath = ReadOutcome.ok df hc →
        df.isEmptyDf = false →
        pageSheetFor (fun p => if p = "1T22_p46_all_tables.csv".toList then
            ReadOutcome.ok ⟨["a"], [[some "x"]]⟩ none
          else ReadOutcome.emptyData) fd =
          ((fd.trimester_id ++ '_' :: 'p' :: natToDigits fd.page).take 31, df)) ∧
      (∀ df hc, (fun p => if p = "1T22_p46_all_tables.csv".toList then
            ReadOutcome.ok ⟨["a"], [[some "x"]]⟩ none
          else ReadOutcome.emptyData) fd.filepath = ReadOutcome.ok df hc →
        df.isEmptyDf = true →
        pageSheetFor (fun p => if p = "1T22_p46_all_tables.csv".toList then
            ReadOutcome.ok ⟨["a"], [[some "x"]]⟩ none
          else ReadOutcome.emptyData) fd =
          ((fd.trimester_id ++ '_' :: 'p' :: natToDigits fd.page).take 31,
           ⟨[], []⟩)) ∧
      ((fun p => if p = "1T22_p46_all_tables.csv".toList then
            ReadOutcome.ok ⟨["a"], [[some "x"]]⟩ none
          else ReadOutcome.emptyData) fd.filepath = ReadOutcome.emptyData →
        pageSheetFor (fun p => if p = "1T22_p46_all_tables.csv".toList then
            ReadOutcome.ok ⟨["a"], [[some "x"]]⟩ none
          else ReadOutcome.emptyData) fd =
          ((fd.trimester_id ++ '_' :: 'p' :: natToDigits fd.page).take 31,
           ⟨[], []⟩)) ∧
      (∀ msg, (fun p => if p = "1T22_p46_all_tables.csv".toList then
            ReadOutcome.ok ⟨["a"], [[some "x"]]⟩ none
          else ReadOutcome.emptyData) fd.filepath = ReadOutcome.err msg →
        pageSheetFor (fun p => if p = "1T22_p46_all_tables.csv".toList then
            ReadOutcome.ok ⟨["a"], [[some "x"]]⟩ none
          else ReadOutcome.emptyData) fd =
          (('E' :: 'R' :: 'R' :: '_' ::
              (fd.trimester_id ++ '_' :: 'p' :: natToDigits fd.page).take 31).take 31,
           errorDf msg))) := by
  have e1 : (["1T22_p46_all_tables.csv".toList,
      "1T22_p47_all_tables.csv".toList] : List (List Char)).filterMap
        parse_filename_for_page_sheet =
      [⟨['1', 'T', '2', '2'], 46, "1T22_p46_all_tables.csv".toList⟩,
       ⟨['1', 'T', '2', '2'], 47, "1T22_p47_all_tables.csv".toList⟩] := by decide
  have e2 : pageSheetSorted
      ["1T22_p46_all_tables.csv".toList, "1T22_p47_all_tables.csv".toList] =
      [⟨['1', 'T', '2', '2'], 46, "1T22_p46_all_tables.csv".toList⟩,
       ⟨['1', 'T', '2', '2'], 47, "1T22_p47_all_tables.csv".toList⟩] := by
    rw [pageSheetSorted, e1, List.mergeSort_of_sorted (by decide)]
  have h : create_excel_by_page
      (fun p => if p = "1T22_p46_all_tables.csv".toList then
          ReadOutcome.ok ⟨["a"], [[some "x"]]⟩ none
        else ReadOutcome.emptyData)
      ["1T22_p46_all_tables.csv".toList, "1T22_p47_all_tables.csv".toList] =
      some [("1T22_p46".toList, DataFrame.mk ["a"] [[some "x"]]),
            ("1T22_p47".toList, DataFrame.mk [] [])] := by
    rw [create_excel_by_page, e1, e2]
    decide
  exact ⟨h, c8_page_sheets_characterized _ _ _ h⟩

/-! ### Claim C3 — extractor-to-aggregator round trip -/

theorem basename_append_slash {a file : List Char} (h : '/' ∉ file) :
    basename (a ++ '/' :: file) = file := by
  unfold basename
  have h1 : (a ++ '/' :: file).reverse = file.reverse ++ '/' :: a.reverse := by
    rw [List.reverse_append, List.reverse_cons, List.append_assoc]
    simp
  rw [h1]
  have h2 := takeWhile_run (p := fun c => decide (c ≠ '/')) file.reverse ('/' :: a.reverse)
    (fun c hc =>
      decide_eq_true (fun he => h (he ▸ List.mem_reverse.1 hc)))
    (fun c hc => by
      simp only [List.head?_cons, Option.some.injEq] at hc
      subst hc
      simp)
  rw [h2.1, List.reverse_reverse]

theorem slash_not_mem_x {q : Char} {yy : List Char} (n : Nat)
    (hq : isQuarterChar q) (hyy : ∀ c ∈ yy, c.isDigit) :
    '/' ∉ (q :: 'T' :: yy) ++ '_' :: 'p' :: natToDigits n := by
  intro hmem
  rcases List.mem_append.1 hmem with h | h
  · rcases List.mem_cons.1 h with h1 | h1
    · rw [← h1] at hq
      exact absurd hq (by decide)
    · rcases List.mem_cons.1 h1 with h2 | h2
      · exact absurd h2 (by decide)
      · exact absurd (hyy _ h2) (by decide)
  · rcases List.mem_cons.1 h with h1 | h1
    · exact absurd h1 (by decide)
    · rcases List.mem_cons.1 h1 with h2 | h2
      · exact absurd h2 (by decide)
      · exact absurd (natToDigits_all_digits n _ h2) (by decide)

/-- C3: for every PDF basename `qTyy` and page `n`, the CSV path the
extractor writes matches the aggregators' glob pattern
`csv_*/*_all_tables.csv`, and all three filename parsers recover exactly the
original basename and page number from it. -/
theorem c3_extractor_roundtrip (q : Char) (yy : List Char) (n : Nat)
    (hq : isQuarterChar q) (hyy : ∀ c ∈ yy, c.isDigit) (hlen : 2 ≤ yy.length) :
    globMatchesPattern (extractorCsvRelPath (q :: 'T' :: yy) n) ∧
    parse_filename (extractorCsvRelPath (q :: 'T' :: yy) n) =
      some ⟨extractorCsvRelPath (q :: 'T' :: yy) n, digitsToNat yy, digitVal q,
            n, q :: 'T' :: yy⟩ ∧
    parse_filename_for_page_sheet (extractorCsvRelPath (q :: 'T' :: yy) n) =
      some ⟨q :: 'T' :: yy, n, extractorCsvRelPath (q :: 'T' :: yy) n⟩ ∧
    parse_filename_for_trimester_sheet (extractorCsvRelPath (q :: 'T' :: yy) n) =
      some ⟨q :: 'T' :: yy, n, extractorCsvRelPath (q :: 'T' :: yy) n⟩ := by
  have hx : '/' ∉ (q :: 'T' :: yy) ++ '_' :: 'p' :: natToDigits n :=
    slash_not_mem_x n hq hyy
  have hfile_eq : extractorCsvFileName (q :: 'T' :: yy) n =
      ((q :: 'T' :: yy) ++ '_' :: 'p' :: natToDigits n) ++ allTablesLit := by
    simp [extractorCsvFileName, List.cons_append, List.append_assoc]
  have hfile : '/' ∉ extractorCsvFileName (q :: 'T' :: yy) n := by
    rw [hfile_eq]
    intro hmem
    rcases List.mem_append.1 hmem with h | h
    · exact hx h
    · exact absurd h (by decide)
  have hbase : basename (extractorCsvRelPath (q :: 'T' :: yy) n) =
      extractorCsvFileName (q :: 'T' :: yy) n := by
    rw [extractorCsvRelPath]
    exact basename_append_slash hfile
  have hppl : 1 ≤ (natToDigits n).length :=
    List.length_pos.2 (natToDigits_ne_nil n)
  have hshape : extractorCsvFileName (q :: 'T' :: yy) n =
      q :: 'T' :: (yy ++ '_' :: 'p' :: (natToDigits n ++ (allTablesLit ++ []))) := by
    simp [extractorCsvFileName, List.cons_append]
  have hd : fnameDecomp (basename (extractorCsvRelPath (q :: 'T' :: yy) n))
      q yy (natToDigits n) [] := by
    rw [hbase]
    exact ⟨hq, hyy, hlen, natToDigits_all_digits n, hppl, hshape⟩
  have hp1 := parse_filename_eq_some_iff.2 ⟨q, yy, natToDigits n, [], hd, rfl⟩
  have hp2 := parse_page_sheet_eq_some_iff.2 ⟨q, yy, natToDigits n, [], hd, rfl⟩
  have hp3 := parse_trimester_sheet_eq_some_iff.2 ⟨q, yy, natToDigits n, [], hd, rfl⟩
  rw [digitsToNat_natToDigits] at hp1 hp2 hp3
  refine ⟨?_, hp1, hp2, hp3⟩
  refine ⟨(q :: 'T' :: yy) ++ '_' :: 'p' :: natToDigits n,
          (q :: 'T' :: yy) ++ '_' :: 'p' :: natToDigits n, ?_, hx, hx⟩
  rw [extractorCsvRelPath, extractorCsvDirName, hfile_eq]
  simp [List.cons_append, List.append_assoc]

/-- C3 witness at basename `1T22`, page 46. -/
theorem c3_extractor_roundtrip_witness :
    (isQuarterChar '1' ∧ (∀ c ∈ ['2', '2'], c.isDigit) ∧
      2 ≤ (['2', '2'] : List Char).length) ∧
    (globMatchesPattern (extractorCsvRelPath ('1' :: 'T' :: ['2', '2']) 46) ∧
    parse_filename (extractorCsvRelPath ('1' :: 'T' :: ['2', '2']) 46) =
      some ⟨extractorCsvRelPath ('1' :: 'T' :: ['2', '2']) 46,
            digitsToNat ['2', '2'], digitVal '1', 46, '1' :: 'T' :: ['2', '2']⟩ ∧
    parse_filename_for_page_sheet (extractorCsvRelPath ('1' :: 'T' :: ['2', '2']) 46) =
      some ⟨'1' :: 'T' :: ['2', '2'], 46,
            extractorCsvRelPath ('1' :: 'T' :: ['2', '2']) 46⟩ ∧
    parse_filename_for_trimester_sheet
        (extractorCsvRelPath ('1' :: 'T' :: ['2', '2']) 46) =
      some ⟨'1' :: 'T' :: ['2', '2'], 46,
            extractorCsvRelPath ('1' :: 'T' :: ['2', '2']) 46⟩) :=
  ⟨⟨by decide, by decide, by decide⟩,
   c3_extractor_roundtrip '1' ['2', '2'] 46 (by decide) (by decide) (by decide)⟩

/-! ### Claim C7 — convert_markdown_to_csv table cleaning and concatenation -/

theorem map_intersperse' (f : α → β) (s : α) :
    ∀ l : List α, (List.intersperse s l).map f = List.intersperse (f s) (l.map f) := by
  intro l
  induction l with
  | nil => rfl
  | cons x xs ih =>
    cases xs with
    | nil => rfl
    | cons y ys =>
      simp only [List.intersperse, List.map_cons] at ih ⊢
      rw [ih]

theorem flatten_intersperse_singleton_length (b : List α) :
    ∀ l : List (List α),
      (List.intersperse b l).flatten.length =
        (l.map List.length).sum + (l.length - 1) * b.length := by
  intro l
  induction l with
  | nil => simp
  | cons x xs ih =>
    cases xs with
    | nil => simp
    | cons y ys =>
      simp only [List.intersperse, List.flatten_cons, List.length_append,
        List.map_cons, List.sum_cons] at ih ⊢
      rw [ih]
      have h1 : (y :: ys).length - 1 = ys.length := by simp
      have h2 : (y :: ys).length = ys.length + 1 := by simp
      rw [h1]
      simp only [List.length_cons]
      have h3 : ys.length + 1 + 1 - 1 = ys.length + 1 := by omega
      rw [h3, Nat.add_mul, Nat.one_mul]
      omega

theorem map_colValue_nil (H : List String) :
    H.map (colValue [] []) = List.replicate H.length none := by
  induction H with
  | nil => rfl
  | cons h t ih => simp only [List.map_cons, List.replicate, ih]; rfl

/-- C7: each parsed table is cleaned by dropping all-NaN rows then all-NaN
columns; the tables still non-empty are saved as `table_{i}.csv` with `i`
their 1-based position among all parsed tables; the `all_tables` frame is
absent when no table survives, the single table itself when one survives,
and otherwise the aligned concatenation with exactly one all-NaN separator
row between consecutive tables (`k - 1` separators for `k` tables). -/
theorem c7_convert_markdown_tables (dfs : List DataFrame) :
    (∀ df : DataFrame,
      (dropAllNanRows df).rows = df.rows.filter (fun r => r.any (fun c => c.isSome)) ∧
      (dropAllNanRows df).header = df.header ∧
      cleanTable df = dropAllNanCols (dropAllNanRows df)) ∧
    savedTables dfs = (dfs.enum.filter
        (fun p => !(cleanTable p.2).isEmptyDf)).map
      (fun p => (p.1 + 1, cleanTable p.2)) ∧
    (cleanedKept dfs = [] → allTablesDf dfs = none) ∧
    (∀ t, cleanedKept dfs = [t] → allTablesDf dfs = some t) ∧
    (∀ t1 t2 ts, cleanedKept dfs = t1 :: t2 :: ts →
      ∃ d, allTablesDf dfs = some d ∧
        d.rows = (List.intersperse
            [List.replicate
              (unionHeaders (List.intersperse sepDf (t1 :: t2 :: ts))).length
              (none : Cell)]
            ((t1 :: t2 :: ts).map (fun t => t.rows.map (fun r =>
              (unionHeaders (List.intersperse sepDf (t1 :: t2 :: ts))).map
                (colValue t.header r))))).flatten ∧
        d.rows.length = ((t1 :: t2 :: ts).map (fun t => t.rows.length)).sum +
          ((t1 :: t2 :: ts).length - 1)) := by
  refine ⟨fun df => ⟨rfl, rfl, rfl⟩, ?_, ?_, ?_, ?_⟩
  · rw [savedTables,
      filterMap_ite (P := fun p : Nat × DataFrame => (cleanTable p.2).isEmptyDf)
        (f := fun p : Nat × DataFrame => (p.1 + 1, cleanTable p.2))]
  · intro hck
    simp only [allTablesDf, hck]
  · intro t hck
    simp only [allTablesDf, hck]
  · intro t1 t2 ts hck
    simp only [allTablesDf, hck]
    refine ⟨_, rfl, ?_, ?_⟩
    · simp only [concatAligned]
      rw [show ∀ (L : List DataFrame) (g : DataFrame → List (List Cell)),
            L.flatMap g = (L.map g).flatten from fun L g => rfl,
        map_intersperse']
      congr 1
      simp [sepDf, map_colValue_nil]
    · simp only [concatAligned]
      rw [show ∀ (L : List DataFrame) (g : DataFrame → List (List Cell)),
            L.flatMap g = (L.map g).flatten from fun L g => rfl,
        map_intersperse']
      have hsep : (sepDf.rows.map (fun r =>
          (unionHeaders (List.intersperse sepDf (t1 :: t2 :: ts))).map
            (colValue sepDf.header r))) =
          [List.replicate
            (unionHeaders (List.intersperse sepDf (t1 :: t2 :: ts))).length
            (none : Cell)] := by
        simp [sepDf, map_colValue_nil]
      rw [hsep, flatten_intersperse_singleton_length]
      simp [List.map_map, Function.comp_def]

/-- C7 witness: three parsed tables — one cleanable, one entirely NaN, one
plain — so two survive and one separator row is inserted. -/
theorem c7_convert_markdown_tables_witness :
    cleanedKept [⟨["a"], [[some "x"], [none]]⟩, ⟨["b"], [[none]]⟩,
        ⟨["c"], [[some "z"]]⟩] =
      DataFrame.mk ["a"] [[some "x"]] :: DataFrame.mk ["c"] [[some "z"]] :: [] ∧
    ∃ d, allTablesDf [⟨["a"], [[some "x"], [none]]⟩, ⟨["b"], [[none]]⟩,
        ⟨["c"], [[some "z"]]⟩] = some d ∧
      d.rows = (List.intersperse
          [List.replicate
            (unionHeaders (List.intersperse sepDf
              (DataFrame.mk ["a"] [[some "x"]] ::
                DataFrame.mk ["c"] [[some "z"]] :: []))).length
            (none : Cell)]
          ((DataFrame.mk ["a"] [[some "x"]] ::
              DataFrame.mk ["c"] [[some "z"]] :: []).map
            (fun t => t.rows.map (fun r =>
              (unionHeaders (List.intersperse sepDf
                (DataFrame.mk ["a"] [[some "x"]] ::
                  DataFrame.mk ["c"] [[some "z"]] :: []))).map
                (colValue t.header r))))).flatten ∧
      d.rows.length = ((DataFrame.mk ["a"] [[some "x"]] ::
          DataFrame.mk ["c"] [[some "z"]] :: []).map
        (fun t => t.rows.length)).sum +
        ((DataFrame.mk ["a"] [[some "x"]] ::
          DataFrame.mk ["c"] [[some "z"]] :: []).length - 1) := by
  have hck : cleanedKept [⟨["a"], [[some "x"], [none]]⟩, ⟨["b"], [[none]]⟩,
      ⟨["c"], [[some "z"]]⟩] =
      DataFrame.mk ["a"] [[some "x"]] :: DataFrame.mk ["c"] [[some "z"]] :: [] := by
    decide
  exact ⟨hck,
    (c7_convert_markdown_tables
      [⟨["a"], [[some "x"], [none]]⟩, ⟨["b"], [[none]]⟩,
       ⟨["c"], [[some "z"]]⟩]).2.2.2.2
      (DataFrame.mk ["a"] [[some "x"]]) (DataFrame.mk ["c"] [[some "z"]]) [] hck⟩

end PdfToTable
